import Mathlib

/-! Verification development for a collection of browser-automation
password-rotation flows (Fandom, PCPartPicker, Zillow, weather.com,
Wikipedia).  Each flow is a linear sequence of awaited calls against an
external browser page.  We embed every flow as a pure function from an
environment record -- the observable outcome of each external call site
(normal return or thrown exception, plus returned data such as the current
URL) -- to a trace of emitted external events together with either a
returned run result or an exception that escapes the flow. -/

/-- Outcome of one awaited external call: a normal return, or a thrown
exception carrying its message string. -/
abbrev Res (α : Type) := Except String α

/-- Decidable equality of call outcomes. -/
instance {α β : Type} [DecidableEq α] [DecidableEq β] : DecidableEq (Except α β) :=
  fun a b =>
  match a, b with
  | .ok x, .ok y =>
    if h : x = y then .isTrue (by rw [h]) else .isFalse (fun hc => h (Except.ok.inj hc))
  | .error x, .error y =>
    if h : x = y then .isTrue (by rw [h]) else .isFalse (fun hc => h (Except.error.inj hc))
  | .ok _, .error _ => .isFalse (fun hc => Except.noConfusion hc)
  | .error _, .ok _ => .isFalse (fun hc => Except.noConfusion hc)

/-- Terminal outcome of a flow: a success flag and a human-readable message. -/
structure RunResult where
  success : Bool
  message : String
  deriving DecidableEq, Repr

/-- Truthiness test for a possibly-undefined JavaScript string: `undefined`
and the empty string are the falsy cases. -/
def falsy : Option String → Bool
  | none => true
  | some s => s = ""

/-- JavaScript `a || b` on possibly-undefined strings. -/
def jsOr (a b : Option String) : Option String :=
  if falsy a then b else a

/-- JavaScript `a || d` where the fallback `d` is a non-empty string literal,
so the result is a definite string. -/
def jsOrD (a : Option String) (d : String) : String :=
  match a with
  | none => d
  | some s => if s = "" then d else s

/-- JavaScript `s.replace(/\/$/, "")`: drop one trailing slash if present. -/
def stripTrailingSlash (s : String) : String :=
  match s.data.getLast? with
  | some '/' => String.mk s.data.dropLast
  | _ => s

/-- Whether `pat` occurs as a contiguous run inside the list (character-level
model of JavaScript `String.prototype.includes`). -/
def occursIn (pat : List Char) : List Char → Bool
  | [] => pat.isEmpty
  | c :: cs => decide (pat <+: (c :: cs)) || occursIn pat cs

/-- JavaScript `s.includes(pat)`. -/
def containsStr (s pat : String) : Bool :=
  occursIn pat.data s.data

/-- The characters after the first "://" up to the next slash, question mark
or hash. -/
def hostChars : List Char → Option (List Char)
  | [] => none
  | ':' :: '/' :: '/' :: rest =>
    some (rest.takeWhile (fun c => !(c == '/' || c == '?' || c == '#')))
  | _ :: cs => hostChars cs

/-- Model of `new URL(s).host` for the absolute http(s) URLs these flows
build: the text between the scheme separator and the next slash, question
mark or hash.  `none` models the URL constructor throwing. -/
def urlHost (s : String) : Option String :=
  match hostChars s.data with
  | some [] => none
  | some h => some (String.mk h)
  | none => none

/-- Model of `new URL(s).hostname`: the host with any port stripped. -/
def urlHostname (s : String) : Option String :=
  (urlHost s).map (fun h => String.mk (h.data.takeWhile (fun c => c != ':')))

/-- Zillow `maskSecret`: an all-asterisk placeholder whose length is the
secret length clamped to the range 4..12; undefined or empty secrets give
the empty string. -/
def maskSecret : Option String → String
  | none => ""
  | some v =>
    if v = "" then ""
    else String.mk (List.replicate (max 4 (min v.length 12)) '*')

/-- Element selectors appearing in the flows; `Sel.css` recovers the literal
selector text used by the source. -/
inductive Sel where
  | signinUsername | signinPassword | signinSubmit
  | settingsNewPassword | logoutConfirm
  | loginForm | loginUser | loginPass | loginSubmit | logoutLink
  | oldPass | newPass1 | newPass2 | changeSubmit | successText
  | zIdentifier | zPassword | zChangeBtn | zCurrent | zNew | zConfirm
  | zApply | zDialog
  | wAvatar | wLoginEmail | wLoginPassword | wLoginSubmit
  | wChangePasswordBtn | wCurrent | wNew | wConfirm | wSave | wErrorHint
  deriving DecidableEq, Repr

/-- Literal selector text of each `Sel`, as written in the source. -/
def Sel.css : Sel → String
  | .signinUsername => "input#identifier.wds-input__field[data-test=\"signin-username-field\"]"
  | .signinPassword => "input#password.wds-input__field[data-test=\"signin-password-field\"]"
  | .signinSubmit => "button#method.wds-button[data-test=\"signin-password-submit\"]"
  | .settingsNewPassword => "input#password.wds-input__field[data-test=\"settings-password-field\"]"
  | .logoutConfirm => "input.wds-button[type=\"submit\"][value=\"Confirm\"]"
  | .loginForm => "form[action=\"/accounts/login/\"]"
  | .loginUser => "#id_username, input[name=\"username\"], input#id_login"
  | .loginPass => "#id_password, input[name=\"password\"]"
  | .loginSubmit => "#form_submit, form[action=\"/accounts/login/\"] button[type=\"submit\"], form[action=\"/accounts/login/\"] input[type=\"submit\"]"
  | .logoutLink => "a[href=\"/accounts/logout/\"]"
  | .oldPass => "#id_old_password, input[name=\"old_password\"]"
  | .newPass1 => "#id_new_password1, input[name=\"new_password1\"], input[name=\"new_password\"]"
  | .newPass2 => "#id_new_password2, input[name=\"new_password2\"], input[name=\"new_password_confirm\"]"
  | .changeSubmit => "input.button[type=\"submit\"][value=\"Change Password\"], form[action*=\"/accounts/password/change/\"] [type=\"submit\"]"
  | .successText => "text=Your password has been changed."
  | .zIdentifier => "input[data-testid=\"identifier-input\"]"
  | .zPassword => "#password[data-testid=\"password-input\"] input[type=\"password\"]"
  | .zChangeBtn => "button[aria-label=\"Change password\"]"
  | .zCurrent => "#current-password-input"
  | .zNew => "#new-password-input"
  | .zConfirm => "#confirm-password-input"
  | .zApply => "button[type=\"submit\"]"
  | .zDialog => "section[role=\"dialog\"]"
  | .wAvatar => "span.ProfileAvatar--initial--dkm7v"
  | .wLoginEmail => "#loginEmail"
  | .wLoginPassword => "#loginPassword"
  | .wLoginSubmit => "button.Button--primary--I3yI4.MemberLoginForm--submitButton--Bz-ob[type=\"submit\"]"
  | .wChangePasswordBtn => "button.MemberProfileForm--changePasswordButton--EzOT4"
  | .wCurrent => "#changePasswordCurrentPassword"
  | .wNew => "#changePasswordNewPassword"
  | .wConfirm => "#changePasswordConfirmPassword"
  | .wSave => "button.Button--primary--I3yI4.MemberChangePasswordForm--submitButton--9cU6R[type=\"submit\"]"
  | .wErrorHint => "[class*=\"Error\"], [data-error], .FormError"

/-- Externally observable events a flow can emit, in program order. -/
inductive Ev where
  | acquire : Ev
  | log (line : String) : Ev
  | goto (url : String) : Ev
  | waitSel (s : Sel) : Ev
  | waitState (state : String) : Ev
  | waitNav : Ev
  | waitUrl : Ev
  | waitDetached (s : Sel) : Ev
  | waitHidden (s : Sel) : Ev
  | click (s : Sel) : Ev
  | fill (s : Sel) (value : String) : Ev
  | press (s : Sel) (key : String) : Ev
  | isVisibleQ (s : Sel) : Ev
  | innerTextQ (s : Sel) : Ev
  | waitMs (ms : Nat) : Ev
  | phase (name : String) : Ev
  deriving DecidableEq, Repr

/-- Console output of a trace: the log lines, in order. -/
def logsOf (tr : List Ev) : List String :=
  tr.filterMap (fun e => match e with | .log line => some line | _ => none)

/-- Record the events of one awaited call together with its outcome. -/
def act (tr evs : List Ev) (r : Res Unit) : List Ev × Res Unit :=
  (tr ++ evs, r)

/-- Sequence a step with the rest of a flow; a thrown exception short-circuits
but keeps the trace accumulated so far. -/
def chain {α : Type} (s : List Ev × Res Unit) (k : List Ev → List Ev × Res α) :
    List Ev × Res α :=
  match s with
  | (tr, .ok _) => k tr
  | (tr, .error e) => (tr, .error e)

namespace Fandom

/-- Raw environment variables consumed by fandom.ts (`ANCHOR_FANDOM_*`). -/
structure Vars where
  baseUrl : Option String
  username : Option String
  password : Option String
  newPassword : Option String

/-- The three URLs built by `buildUrls`. -/
structure Urls where
  loginUrl : String
  changePasswordUrl : String
  logoutUrl : String

/-- fandom.ts `buildUrls`. -/
def buildUrls (baseUrl : String) : Urls :=
  ⟨stripTrailingSlash baseUrl ++ "/wiki/Special:UserLogin",
   stripTrailingSlash baseUrl ++ "/wiki/Special:ChangePassword",
   stripTrailingSlash baseUrl ++ "/wiki/Special:UserLogout"⟩

/-- External outcomes of the call sites inside one `signIn` invocation. -/
structure SignInEnv where
  waitUserVisible : Res Unit
  clickUser : Res Unit
  fillUser : Res Unit
  clickPass : Res Unit
  fillPass : Res Unit
  submitNav : Res Unit
  urlAfter : String

/-- fandom.ts `signIn`: wait for the form, fill both credentials, submit
jointly with a navigation wait (which has no catch here, so either side
throwing aborts), then log the current URL. -/
def signInT (env : SignInEnv) (username password : String) (tr : List Ev) :
    List Ev × Res Unit :=
  chain (act tr [.waitSel .signinUsername] env.waitUserVisible) fun tr =>
  chain (act tr [.click .signinUsername] env.clickUser) fun tr =>
  chain (act tr [.fill .signinUsername username] env.fillUser) fun tr =>
  chain (act tr [.click .signinPassword] env.clickPass) fun tr =>
  chain (act tr [.fill .signinPassword password] env.fillPass) fun tr =>
  chain (act (tr ++ [.log "Submitting sign-in form"])
      [.waitNav, .click .signinSubmit] env.submitNav) fun tr =>
  (tr ++ [.log ("Sign-in attempted. Current URL: " ++ env.urlAfter)], .ok ())

/-- External outcomes of every call site of the Fandom flow, in program
order.  `acquire` covers `getAnchorBrowser()` plus
`browser.contexts()[0].pages()[0]`, which run before input validation and
outside the try block. -/
structure Env where
  acquire : Res Unit
  gotoLogin : Res Unit
  waitSignin : Res Unit
  login1 : SignInEnv
  urlAfterLogin : String
  gotoChange : Res Unit
  waitSettings : Res Unit
  clickNewField : Res Unit
  fillNewField : Res Unit
  pressEnter : Res Unit
  reauthWait : Res Unit
  login2 : SignInEnv
  gotoLogout : Res Unit
  logoutWaitVisible : Res Unit
  logoutClick : Res Unit
  finalUrl : String

/-- STEP 6 of the Fandom flow: logout navigation, `safeClick` on the confirm
button (visibility wait, then click joined with a caught navigation wait),
then the success result carrying the final URL. -/
def finish (env : Env) (urls : Urls) (tr : List Ev) : List Ev × Res RunResult :=
  let tr := tr ++ [.log ("Navigating to logout page: " ++ urls.logoutUrl)]
  chain (act tr [.goto urls.logoutUrl] env.gotoLogout) fun tr =>
  let tr := tr ++ [.log "Confirming logout"]
  chain (act tr [.waitSel .logoutConfirm] env.logoutWaitVisible) fun tr =>
  chain (act (tr ++ [.log ("Click: Logout Confirm -> " ++ Sel.logoutConfirm.css)])
      [.waitNav, .click .logoutConfirm] env.logoutClick) fun tr =>
  let msg := "Password changed and logout completed. Final URL: " ++ env.finalUrl
  (tr ++ [.log msg], .ok ⟨true, msg⟩)

/-- STEP 5 of the Fandom flow: a 6-second wait for a reappearing sign-in
form; if it appears, sign in once more with the NEW password.  The try/catch
around the block swallows a failure of either the wait or the replayed
sign-in, logging the no-re-authentication message, and proceeds to STEP 6. -/
def reauthAndFinish (env : Env) (username newPassword : String) (urls : Urls)
    (tr : List Ev) : List Ev × Res RunResult :=
  match env.reauthWait with
  | .error _ =>
    finish env urls (tr ++ [.waitSel .signinUsername,
      .log "No re-authentication form detected after password change. Proceeding to logout."])
  | .ok _ =>
    let tr := tr ++ [.waitSel .signinUsername,
      .log "Re-authentication detected after password change. Signing in with NEW password."]
    match signInT env.login2 username newPassword tr with
    | (tr, .ok _) => finish env urls tr
    | (tr, .error _) =>
      finish env urls (tr ++
        [.log "No re-authentication form detected after password change. Proceeding to logout."])

/-- Body of the Fandom try block: STEP 1 (login page), STEP 2 (sign in with
the current password), STEP 3 (change-password page), STEP 4 (fill and submit
the new password; the navigation wait is caught, the press may throw), then
STEP 5 and STEP 6. -/
def body (env : Env) (username password newPassword : String) (urls : Urls)
    (tr : List Ev) : List Ev × Res RunResult :=
  let tr := tr ++ [.log ("Navigating to login page: " ++ urls.loginUrl)]
  chain (act tr [.goto urls.loginUrl] env.gotoLogin) fun tr =>
  chain (act (tr ++ [.log "Waiting for Fandom Auth sign-in form"])
      [.waitSel .signinUsername] env.waitSignin) fun tr =>
  let tr := tr ++ [.log "Filling credentials and logging in (current password)"]
  chain (signInT env.login1 username password tr) fun tr =>
  let tr := if containsStr env.urlAfterLogin "community.fandom.com" then tr
    else tr ++ [.log "Post-login URL is not on community.fandom.com; proceeding anyway as redirects may follow."]
  let tr := tr ++ [.log ("Navigating to change password page: " ++ urls.changePasswordUrl)]
  chain (act tr [.goto urls.changePasswordUrl] env.gotoChange) fun tr =>
  chain (act (tr ++ [.log "Waiting for settings new password field on Auth Settings page"])
      [.waitSel .settingsNewPassword] env.waitSettings) fun tr =>
  let tr := tr ++ [.log "Entering new password"]
  chain (act tr [.click .settingsNewPassword] env.clickNewField) fun tr =>
  chain (act tr [.fill .settingsNewPassword newPassword] env.fillNewField) fun tr =>
  chain (act (tr ++ [.log "Submitting new password (press Enter)"])
      [.waitNav, .press .settingsNewPassword "Enter"] env.pressEnter) fun tr =>
  reauthAndFinish env username newPassword urls tr

/-- The fixed message produced when required inputs are missing. -/
def missingMsg : String :=
  "Missing required inputs: ANCHOR_FANDOM_USERNAME, ANCHOR_FANDOM_PASSWORD, ANCHOR_FANDOM_NEW_PASSWORD"

/-- fandom.ts input validation condition. -/
def inputsMissing (v : Vars) : Bool :=
  falsy v.username || falsy v.password || falsy v.newPassword

/-- The environment-variable names of the required inputs that are absent or
empty in `v`. -/
def missingNames (v : Vars) : List String :=
  (if falsy v.username then ["ANCHOR_FANDOM_USERNAME"] else []) ++
  (if falsy v.password then ["ANCHOR_FANDOM_PASSWORD"] else []) ++
  (if falsy v.newPassword then ["ANCHOR_FANDOM_NEW_PASSWORD"] else [])

/-- Exported entry function of fandom.ts.  Browser/page acquisition runs
first and outside the try block, so its exception propagates (`Res.error`).
Then inputs are validated; then the try block runs with every exception
inside it converted to a failed run result. -/
def FandomChangePasswordFlow (env : Env) (v : Vars) : List Ev × Res RunResult :=
  match env.acquire with
  | .error e => ([.acquire], .error e)
  | .ok _ =>
    let urls := buildUrls (jsOrD v.baseUrl "https://community.fandom.com")
    if inputsMissing v then
      ([.acquire, .log missingMsg], .ok ⟨false, missingMsg⟩)
    else
      match body env (v.username.getD "") (v.password.getD "") (v.newPassword.getD "")
          urls [.acquire] with
      | (tr, .ok r) => (tr, .ok r)
      | (tr, .error e) =>
        (tr ++ [.log ("Workflow failed: " ++ e)], .ok ⟨false, "Workflow failed: " ++ e⟩)

end Fandom

namespace Zillow

/-- Possible outcomes of a `page.goto` call: a null response, a response with
its HTTP data, or a thrown error (timeout or navigation failure). -/
inductive GotoOutcome where
  | noResponse
  | response (ok : Bool) (status : Nat) (statusText : String)
  | threw (err : String)
  deriving DecidableEq, Repr

/-- External behavior at one navigation call site: the goto outcome and the
URL the page reports afterwards. -/
structure NavEnv where
  outcome : GotoOutcome
  currentUrl : String

/-- part_001 `safeGoto`: navigate with a load wait; on a thrown error,
tolerate it when the current URL parses to the same (non-empty) host as the
target, otherwise report failure.  Never throws. -/
def safeGoto (nav : NavEnv) (url label : String) (tr : List Ev) :
    List Ev × Bool :=
  let tr := tr ++ [.log ("[NAV] " ++ label ++ ": " ++ url), .goto url]
  match nav.outcome with
  | .noResponse =>
    (tr ++ [.log ("[NAV] " ++ label ++ ": no response object returned (may still be fine).")], true)
  | .response ok status statusText =>
    if ok then (tr, true)
    else (tr ++ [.log ("[NAV] " ++ label ++ ": HTTP " ++ toString status ++ " " ++ statusText)], true)
  | .threw err =>
    match urlHost url, urlHost nav.currentUrl with
    | some th, some ch =>
      if th = ch then
        (tr ++ [.log ("[NAV] " ++ label ++ ": load timeout/warning but on expected host " ++ ch ++ ". Continuing.")], true)
      else
        (tr ++ [.log ("[NAV] " ++ label ++ ": failed to navigate -> " ++ err)], false)
    | _, _ => (tr ++ [.log ("[NAV] " ++ label ++ ": failed to navigate -> " ++ err)], false)

/-- The boolean verdict of `safeGoto`, independent of the trace argument. -/
def navReached (nav : NavEnv) (url : String) : Bool :=
  (safeGoto nav url "" []).2

/-- part_001 `expectVisible`: a visibility wait that returns false (after an
error log) instead of throwing. -/
def expectVisible (r : Res Unit) (s : Sel) (desc : String) (timeoutMs : Nat)
    (tr : List Ev) : List Ev × Bool :=
  match r with
  | .ok _ => (tr ++ [.waitSel s], true)
  | .error err =>
    (tr ++ [.waitSel s,
      .log ("[WAIT] " ++ desc ++ ": not visible within " ++ toString timeoutMs ++ "ms -> " ++ err)], false)

/-- Raw environment variables consumed by part_001 (`ANCHOR_*`). -/
structure Vars where
  email : Option String
  currentPassword : Option String
  newPassword : Option String
  startUrl : Option String
  profileUrl : Option String
  logoutUrl : Option String

/-- External outcomes of every call site of the Zillow flow, in program
order.  The two race fields record how the post-submit `Promise.race`
settled; both of its arms swallow their own failures. -/
structure Env where
  acquire : Res Unit
  nav1 : NavEnv
  emailVis : Res Unit
  fillEmail : Res Unit
  pressEmail : Res Unit
  pwdVis : Res Unit
  fillPwd : Res Unit
  pressPwd : Res Unit
  nav2 : NavEnv
  changeBtnVis : Res Unit
  clickChangeBtn : Res Unit
  curVis : Res Unit
  newVis : Res Unit
  confVis : Res Unit
  fillCur : Res Unit
  fillNew : Res Unit
  fillConf : Res Unit
  applyVis : Res Unit
  clickApply : Res Unit
  raceUrlReached : Bool
  raceDialogDetached : Bool
  nav3 : NavEnv

/-- The fixed success message of the Zillow flow. -/
def successMsg : String :=
  "Password change flow executed and logout attempted successfully."

/-- Body of the Zillow try block: login (email then password, each submitted
with Enter), profile page, change-password dialog, apply, the swallowed
post-submit race, then logout (whose failure is only logged) and the success
result. -/
def body (env : Env) (email currentPassword newPassword startUrl profileUrl logoutUrl : String)
    (tr : List Ev) : List Ev × Res RunResult :=
  match safeGoto env.nav1 startUrl "Open login page" tr with
  | (tr, false) => (tr, .ok ⟨false, "Failed to open login page"⟩)
  | (tr, true) =>
  match expectVisible env.emailVis .zIdentifier "Email input [data-testid=\"identifier-input\"]" 15000 tr with
  | (tr, false) => (tr, .ok ⟨false, "Email input not available"⟩)
  | (tr, true) =>
  let tr := tr ++ [.log ("[ACTION] Typing email (" ++ maskSecret (some email) ++ ") and submitting")]
  chain (act tr [.fill .zIdentifier email] env.fillEmail) fun tr =>
  chain (act tr [.press .zIdentifier "Enter"] env.pressEmail) fun tr =>
  match expectVisible env.pwdVis .zPassword "Password input #password" 15000 tr with
  | (tr, false) => (tr, .ok ⟨false, "Password input not available"⟩)
  | (tr, true) =>
  let tr := tr ++ [.log ("[ACTION] Typing current password (" ++ maskSecret (some currentPassword) ++ ") and submitting")]
  chain (act tr [.fill .zPassword currentPassword] env.fillPwd) fun tr =>
  chain (act tr [.press .zPassword "Enter"] env.pressPwd) fun tr =>
  match safeGoto env.nav2 profileUrl "Open My Profile" tr with
  | (tr, false) => (tr, .ok ⟨false, "Failed to open My Profile page"⟩)
  | (tr, true) =>
  match expectVisible env.changeBtnVis .zChangeBtn "Change password button [aria-label=\"Change password\"]" 15000 tr with
  | (tr, false) => (tr, .ok ⟨false, "Change password button not available"⟩)
  | (tr, true) =>
  let tr := tr ++ [.log "[ACTION] Opening Change password dialog"]
  chain (act tr [.click .zChangeBtn] env.clickChangeBtn) fun tr =>
  match expectVisible env.curVis .zCurrent "Current password input #current-password-input" 15000 tr with
  | (tr, false) => (tr, .ok ⟨false, "One or more password dialog inputs are not available"⟩)
  | (tr, true) =>
  match expectVisible env.newVis .zNew "New password input #new-password-input" 15000 tr with
  | (tr, false) => (tr, .ok ⟨false, "One or more password dialog inputs are not available"⟩)
  | (tr, true) =>
  match expectVisible env.confVis .zConfirm "Confirm password input #confirm-password-input" 15000 tr with
  | (tr, false) => (tr, .ok ⟨false, "One or more password dialog inputs are not available"⟩)
  | (tr, true) =>
  let tr := tr ++ [.log ("[ACTION] Filling current (" ++ maskSecret (some currentPassword) ++ "), new (" ++ maskSecret (some newPassword) ++ "), and confirm new password")]
  chain (act tr [.fill .zCurrent currentPassword] env.fillCur) fun tr =>
  chain (act tr [.fill .zNew newPassword] env.fillNew) fun tr =>
  chain (act tr [.fill .zConfirm newPassword] env.fillConf) fun tr =>
  match expectVisible env.applyVis .zApply "Apply button (type=submit) inside dialog" 15000 tr with
  | (tr, false) => (tr, .ok ⟨false, "Apply button not available"⟩)
  | (tr, true) =>
  let tr := tr ++ [.log "[ACTION] Submitting password change"]
  chain (act tr [.click .zApply] env.clickApply) fun tr =>
  let tr := tr ++ [.waitUrl, .waitDetached .zDialog]
  match safeGoto env.nav3 logoutUrl "Logout" tr with
  | (tr, false) =>
    let tr := tr ++ [.log "Logout navigation experienced an issue, but continuing to finalize."]
    (tr ++ [.log successMsg], .ok ⟨true, successMsg⟩)
  | (tr, true) =>
    (tr ++ [.log successMsg], .ok ⟨true, successMsg⟩)

/-- The names of the required inputs absent or empty in `v`, exactly as the
source accumulates them. -/
def missingNames (v : Vars) : List String :=
  (if falsy v.email then ["ANCHOR_EMAIL"] else []) ++
  (if falsy v.currentPassword then ["ANCHOR_CURRENT_PASSWORD"] else []) ++
  (if falsy v.newPassword then ["ANCHOR_NEW_PASSWORD"] else [])

/-- part_001 input validation condition. -/
def inputsMissing (v : Vars) : Bool :=
  falsy v.email || falsy v.currentPassword || falsy v.newPassword

/-- Exported entry function of part_001.  Browser/page acquisition runs
first, then validation, then the try block with every exception inside it
converted to a failed run result. -/
def zillowChangePasswordFlow (env : Env) (v : Vars) : List Ev × Res RunResult :=
  match env.acquire with
  | .error e => ([.acquire], .error e)
  | .ok _ =>
    if inputsMissing v then
      let msg := "Missing required inputs: " ++ String.intercalate ", " (missingNames v)
      ([.acquire, .log msg], .ok ⟨false, msg⟩)
    else
      match body env (v.email.getD "") (v.currentPassword.getD "") (v.newPassword.getD "")
          (jsOrD v.startUrl "https://www.zillow.com/auth/user/login?entry_point=auth_ui_service_error_page&prompt=login")
          (jsOrD v.profileUrl "https://www.zillow.com/myzillow/profile/")
          (jsOrD v.logoutUrl "https://www.zillow.com/Logout.htm") [.acquire] with
      | (tr, .ok r) => (tr, .ok r)
      | (tr, .error e) =>
        (tr ++ [.log ("Workflow error: " ++ e)], .ok ⟨false, "Workflow error: " ++ e⟩)

end Zillow

namespace Pcpp

/-- Raw environment variables consumed by part_000 (`ANCHOR_*`). -/
structure Vars where
  loginUrl : Option String
  changePasswordUrl : Option String
  username : Option String
  login : Option String
  email : Option String
  oldPassword : Option String
  password : Option String
  newPassword : Option String

/-- INPUTS.username, with its two fallbacks. -/
def inputUsername (v : Vars) : Option String :=
  jsOr (jsOr v.username v.login) v.email

/-- INPUTS.oldPassword, with its fallback. -/
def inputOldPassword (v : Vars) : Option String :=
  jsOr v.oldPassword v.password

/-- part_000 `listMissingInputs`, in source push order. -/
def listMissingInputs (v : Vars) : List String :=
  (if falsy (inputUsername v) then ["ANCHOR_USERNAME (or ANCHOR_LOGIN / ANCHOR_EMAIL)"] else []) ++
  (if falsy (inputOldPassword v) then ["ANCHOR_PASSWORD (or ANCHOR_OLD_PASSWORD)"] else []) ++
  (if falsy v.newPassword then ["ANCHOR_NEW_PASSWORD"] else [])

/-- External behavior at one part_000 `safeGoto` call site: the goto outcome
and the outcome of the fallback domcontentloaded wait (both swallowed). -/
structure PNavEnv where
  gotoRes : Res Unit
  dclRes : Res Unit

/-- part_000 `safeGoto`: navigation whose error is logged and then swallowed
after a (also swallowed) domcontentloaded wait.  It never fails: control
always continues, whatever host the page is on. -/
def safeGoto (nav : PNavEnv) (url : String) (tr : List Ev) : List Ev :=
  let tr := tr ++ [.log ("[nav] goto " ++ url), .goto url]
  match nav.gotoRes with
  | .ok _ => tr
  | .error err =>
    tr ++ [.log ("[warn] page.goto error: " ++ err), .waitState "domcontentloaded"]

/-- part_000 `waitForVisible`: logs and waits; the wait may throw. -/
def waitForVisible (r : Res Unit) (s : Sel) (tr : List Ev) : List Ev × Res Unit :=
  (tr ++ [.log ("[wait] visible " ++ s.css), .waitSel s], r)

/-- A `Promise.all` of a caught load wait (whose failure is only logged) and
a click (whose failure propagates). -/
def submitJoin (loadRes : Res Unit) (warnPrefix : String) (clickRes : Res Unit)
    (s : Sel) (tr : List Ev) : List Ev × Res Unit :=
  let tr := tr ++ [.waitState "load"]
  let tr := match loadRes with
    | .ok _ => tr
    | .error err => tr ++ [.log (warnPrefix ++ err)]
  (tr ++ [.click s], clickRes)

/-- External outcomes of every call site of the PCPartPicker flow, in
program order. -/
structure Env where
  acquire : Res Unit
  nav1 : PNavEnv
  waitForm : Res Unit
  waitUser : Res Unit
  waitPass : Res Unit
  fillUser : Res Unit
  fillPass : Res Unit
  loadAfterLogin : Res Unit
  clickLogin : Res Unit
  loggedIn : Bool
  stillOnLogin : Bool
  urlAfterLogin : String
  nav2 : PNavEnv
  waitOld : Res Unit
  waitNew1 : Res Unit
  waitNew2 : Res Unit
  fillOld : Res Unit
  fillNew1 : Res Unit
  fillNew2 : Res Unit
  loadAfterChange : Res Unit
  clickChange : Res Unit
  finalUrl : String
  successTextVisible : Bool

/-- The two verification messages of the PCPartPicker flow. -/
def okMsg : String := "Password changed successfully."

/-- Failure message when neither success signal is detected. -/
def failMsg : String :=
  "Password change may have failed: success URL or confirmation text not detected."

/-- Body of the part_000 try block: login, login-failure check, navigation
to the change form, fills, submit, then verification against the done-URL or
the confirmation text. -/
def body (env : Env) (username oldPassword newPassword loginUrl changePasswordUrl : String)
    (tr : List Ev) : List Ev × Res RunResult :=
  let tr := safeGoto env.nav1 loginUrl tr
  chain (waitForVisible env.waitForm .loginForm tr) fun tr =>
  chain (waitForVisible env.waitUser .loginUser tr) fun tr =>
  chain (waitForVisible env.waitPass .loginPass tr) fun tr =>
  chain (act (tr ++ [.log "[action] fill username"]) [.fill .loginUser username] env.fillUser) fun tr =>
  chain (act (tr ++ [.log "[action] fill password"]) [.fill .loginPass oldPassword] env.fillPass) fun tr =>
  chain (submitJoin env.loadAfterLogin "[warn] load wait after login: " env.clickLogin
      .loginSubmit (tr ++ [.log "[action] submit login"])) fun tr =>
  let tr := tr ++ [.isVisibleQ .logoutLink, .isVisibleQ .loginForm,
    .log ("[state] After login: url=" ++ env.urlAfterLogin ++ " loggedIn=" ++ toString env.loggedIn
      ++ " stillOnLogin=" ++ toString env.stillOnLogin)]
  if !env.loggedIn && env.stillOnLogin then
    let msg := "Login appears to have failed: login form still visible after submit."
    (tr ++ [.log msg], .ok ⟨false, msg⟩)
  else
  let tr := safeGoto env.nav2 changePasswordUrl tr
  chain (waitForVisible env.waitOld .oldPass tr) fun tr =>
  chain (waitForVisible env.waitNew1 .newPass1 tr) fun tr =>
  chain (waitForVisible env.waitNew2 .newPass2 tr) fun tr =>
  chain (act (tr ++ [.log "[action] fill old password"]) [.fill .oldPass oldPassword] env.fillOld) fun tr =>
  chain (act (tr ++ [.log "[action] fill new password"]) [.fill .newPass1 newPassword] env.fillNew1) fun tr =>
  chain (act (tr ++ [.log "[action] confirm new password"]) [.fill .newPass2 newPassword] env.fillNew2) fun tr =>
  chain (submitJoin env.loadAfterChange "[warn] load wait after change submit: " env.clickChange
      .changeSubmit (tr ++ [.log "[action] submit change password"])) fun tr =>
  let successUrl := containsStr env.finalUrl "/accounts/password/change/done/"
  let tr := tr ++ [.isVisibleQ .successText]
  if successUrl || env.successTextVisible then
    (tr ++ [.log okMsg], .ok ⟨true, okMsg⟩)
  else
    (tr ++ [.log failMsg], .ok ⟨false, failMsg⟩)

/-- Exported entry function of part_000 (`pcppChangePasswordTask`).
Browser/page acquisition runs first; then the explicit missing-input list is
computed and, when non-empty, reported; then the try block runs. -/
def pcppChangePasswordTask (env : Env) (v : Vars) : List Ev × Res RunResult :=
  match env.acquire with
  | .error e => ([.acquire], .error e)
  | .ok _ =>
    let missing := listMissingInputs v
    if missing.isEmpty then
      match body env ((inputUsername v).getD "") ((inputOldPassword v).getD "")
          (v.newPassword.getD "")
          (jsOrD v.loginUrl "https://pcpartpicker.com/accounts/login/")
          (jsOrD v.changePasswordUrl "https://pcpartpicker.com/accounts/password/change/")
          [.acquire] with
      | (tr, .ok r) => (tr, .ok r)
      | (tr, .error e) =>
        (tr ++ [.log ("Unhandled error in flow: " ++ e)], .ok ⟨false, "Unhandled error in flow: " ++ e⟩)
    else
      let msg := "Missing required inputs: " ++ String.intercalate ", " missing
      ([.acquire, .log msg], .ok ⟨false, msg⟩)

end Pcpp

namespace Weather

/-- Raw environment variables consumed by part_002 (`ANCHOR_*`). -/
structure Vars where
  baseUrl : Option String
  wEmail : Option String
  username : Option String
  wPassword : Option String
  password : Option String
  wNewPassword : Option String
  newPassword : Option String
  wCurrentPassword : Option String
  currentPassword : Option String

/-- INPUTS.username with its fallback. -/
def inputUsername (v : Vars) : Option String := jsOr v.wEmail v.username

/-- INPUTS.password with its fallback. -/
def inputPassword (v : Vars) : Option String := jsOr v.wPassword v.password

/-- INPUTS.newPassword with its fallback. -/
def inputNewPassword (v : Vars) : Option String := jsOr v.wNewPassword v.newPassword

/-- INPUTS.currentPassword with its fallbacks and empty-string default. -/
def inputCurrentPassword (v : Vars) : String :=
  (jsOr v.wCurrentPassword v.currentPassword).getD ""

/-- External behavior at one part_002 `gotoWithLoad` call site. -/
structure WNavEnv where
  gotoRes : Res Unit
  currentUrl : String

/-- part_002 `gotoWithLoad`: on a goto error, continue when the current URL
STRING CONTAINS the target hostname (a substring test, not a host
comparison), otherwise rethrow the error. -/
def gotoWithLoad (nav : WNavEnv) (url : String) (tr : List Ev) :
    List Ev × Res Unit :=
  let tr := tr ++ [.goto url]
  match nav.gotoRes with
  | .ok _ => (tr, .ok ())
  | .error err =>
    match urlHostname url with
    | some h =>
      if containsStr nav.currentUrl h then
        (tr ++ [.log ("[nav] Load timeout, but currently at " ++ nav.currentUrl ++ ". Continuing.")], .ok ())
      else (tr, .error err)
    | none => (tr, .error "TypeError: Invalid URL")

/-- part_002 `waitVisible`: logs on timeout and rethrows. -/
def waitVisible (r : Res Unit) (s : Sel) (tr : List Ev) : List Ev × Res Unit :=
  match r with
  | .ok _ => (tr ++ [.waitSel s], .ok ())
  | .error e =>
    (tr ++ [.waitSel s, .log ("[waitVisible] Timed out waiting for selector: " ++ s.css)], .error e)

/-- Loop of part_002 `clickWithRetry`: `i` is the index of the next attempt,
the second argument the attempts remaining, `last` the last error seen (the
JavaScript initial value is `undefined`).  Each failed attempt logs a
warning and sleeps 750ms; exhaustion logs an error and throws `last`. -/
def clickRetryAux (oracle : Nat → Res Unit) (s : Sel) :
    Nat → Nat → String → List Ev → List Ev × Res Unit
  | _i, 0, last, tr =>
    (tr ++ [.log ("[clickWithRetry] All attempts failed for " ++ s.css)], .error last)
  | i, n + 1, _last, tr =>
    match oracle i with
    | .ok _ => (tr ++ [.click s], .ok ())
    | .error e =>
      clickRetryAux oracle s (i + 1) n e
        (tr ++ [.click s,
          .log ("[clickWithRetry] Attempt " ++ toString (i + 1) ++ " failed for " ++ s.css ++ ". Retrying..."),
          .waitMs 750])

/-- part_002 `clickWithRetry` with its attempt budget; `oracle i` is the
outcome of the i-th (0-based) click attempt. -/
def clickWithRetry (oracle : Nat → Res Unit) (s : Sel) (attempts : Nat)
    (tr : List Ev) : List Ev × Res Unit :=
  clickRetryAux oracle s 0 attempts "undefined" tr

/-- part_002 `fillInput`: visibility wait, clearing fill, then the value
fill; each step may throw. -/
def fillInput (wait fillClear fillVal : Res Unit) (s : Sel) (value : String)
    (tr : List Ev) : List Ev × Res Unit :=
  chain (waitVisible wait s tr) fun tr =>
  chain (act tr [.fill s ""] fillClear) fun tr =>
  act tr [.fill s value] fillVal

/-- The caught post-login load wait: on error, proceed when the current URL
contains "weather.com", otherwise rethrow. -/
def loginLoadWait (loadRes : Res Unit) (atUrl : String) (tr : List Ev) :
    List Ev × Res Unit :=
  let tr := tr ++ [.waitState "load"]
  match loadRes with
  | .ok _ => (tr, .ok ())
  | .error e =>
    if containsStr atUrl "weather.com" then
      (tr ++ [.log ("[login] Load wait timed out but at " ++ atUrl ++ ". Proceeding.")], .ok ())
    else (tr, .error e)

/-- External outcomes of every call site of the weather.com flow, in
program order. -/
structure Env where
  acquire : Res Unit
  navA : WNavEnv
  loggedIn : Bool
  navB : WNavEnv
  wEmailVis : Res Unit
  fEmailClear : Res Unit
  fEmail : Res Unit
  wPassVis : Res Unit
  fPassClear : Res Unit
  fPass : Res Unit
  loginClicks : Nat → Res Unit
  loadAfterLogin : Res Unit
  urlAfterLogin : String
  avatarVis : Res Unit
  avatarClicks : Nat → Res Unit
  loadC : Res Unit
  urlC : String
  navC : WNavEnv
  changeBtnVis : Res Unit
  changeClicks : Nat → Res Unit
  wCurVis : Res Unit
  fCurClear : Res Unit
  fCur : Res Unit
  wNewVis : Res Unit
  fNewClear : Res Unit
  fNew : Res Unit
  wConfVis : Res Unit
  fConfClear : Res Unit
  fConf : Res Unit
  saveClicks : Nat → Res Unit
  detachRes : Res Unit
  hiddenRes : Res Unit
  errorText : String

/-- Step B of the weather.com flow: when not already logged in, navigate to
the login page, fill the credentials, submit with retries, tolerate a load
timeout while still on weather.com, and verify the avatar. -/
def stepB (env : Env) (email loginPassword baseUrl : String) (tr : List Ev) :
    List Ev × Res Unit :=
  if env.loggedIn then
    (tr ++ [.log "[Step B] Already logged in (avatar detected)."], .ok ())
  else
    let tr := tr ++ [.log "[Step B] Not logged in. Navigating to login page."]
    chain (gotoWithLoad env.navB (baseUrl ++ "/login") tr) fun tr =>
    chain (fillInput env.wEmailVis env.fEmailClear env.fEmail .wLoginEmail email tr) fun tr =>
    chain (fillInput env.wPassVis env.fPassClear env.fPass .wLoginPassword loginPassword tr) fun tr =>
    let tr := tr ++ [.log "[Step B] Submit login form"]
    chain (clickWithRetry env.loginClicks .wLoginSubmit 2 tr) fun tr =>
    chain (loginLoadWait env.loadAfterLogin env.urlAfterLogin tr) fun tr =>
    let tr := tr ++ [.log "[Step B] Verify login by checking profile avatar"]
    waitVisible env.avatarVis .wAvatar tr

/-- Steps C through G of the weather.com flow: settings navigation (avatar
click with a swallowed failure, then direct fallback), the change-password
dialog, fills, save, and verification by dialog disappearance. -/
def stepCOn (env : Env) (currentPassword newPassword baseUrl : String)
    (tr : List Ev) : List Ev × Res RunResult :=
  let tr := tr ++ [.log "[Step C] Navigate to Member Settings"]
  let s : List Ev × Bool :=
    match clickWithRetry env.avatarClicks .wAvatar 2 tr with
    | (tr, .error _) => (tr, false)
    | (tr, .ok _) =>
      let tr := tr ++ [.waitState "load"]
      match env.loadC with
      | .error _ => (tr, false)
      | .ok _ => (tr, containsStr env.urlC "/member/settings")
  match s with
  | (tr, navigated) =>
  let next : List Ev × Res Unit :=
    if navigated then (tr, Except.ok ())
    else
      let tr := tr ++ [.log "[Step C] Fallback direct navigation to settings"]
      gotoWithLoad env.navC (baseUrl ++ "/member/settings") tr
  chain next fun tr =>
  let tr := tr ++ [.log "[Step D] Open Change Password dialog"]
  chain (waitVisible env.changeBtnVis .wChangePasswordBtn tr) fun tr =>
  chain (clickWithRetry env.changeClicks .wChangePasswordBtn 2 tr) fun tr =>
  let tr := tr ++ [.log "[Step E] Fill Change Password form"]
  chain (fillInput env.wCurVis env.fCurClear env.fCur .wCurrent currentPassword tr) fun tr =>
  chain (fillInput env.wNewVis env.fNewClear env.fNew .wNew newPassword tr) fun tr =>
  chain (fillInput env.wConfVis env.fConfClear env.fConf .wConfirm newPassword tr) fun tr =>
  let tr := tr ++ [.log "[Step F] Submit Change Password form"]
  chain (clickWithRetry env.saveClicks .wSave 2 tr) fun tr =>
  let tr := tr ++ [.log "[Step G] Verify password change by waiting for dialog to close"]
  let s2 : List Ev × Bool :=
    match env.detachRes with
    | .ok _ => (tr ++ [.waitDetached .wCurrent], true)
    | .error _ =>
      let tr := tr ++ [.waitDetached .wCurrent, .waitHidden .wCurrent]
      match env.hiddenRes with
      | .ok _ => (tr, true)
      | .error _ => (tr, false)
  match s2 with
  | (tr, true) =>
    let msg := "Password changed successfully on weather.com"
    (tr ++ [.log msg], .ok ⟨true, msg⟩)
  | (tr, false) =>
    let tr := tr ++ [.innerTextQ .wErrorHint]
    let msg := "Password change may have failed. Dialog still present. Error hint: " ++ env.errorText
    (tr ++ [.log msg], .ok ⟨false, msg⟩)

/-- Body of the part_002 try block. -/
def body (env : Env) (email loginPassword currentPassword newPassword baseUrl : String)
    (tr : List Ev) : List Ev × Res RunResult :=
  let tr := tr ++ [.log "[Step A] Navigate to base URL"]
  chain (gotoWithLoad env.navA (baseUrl ++ "/?Goto=Redirected") tr) fun tr =>
  let tr := tr ++ [.isVisibleQ .wAvatar]
  chain (stepB env email loginPassword baseUrl tr) fun tr =>
  stepCOn env currentPassword newPassword baseUrl tr

/-- The fixed missing-input message of part_002, listing every required
name (with its fallback alias). -/
def missingMsg : String :=
  "Missing required inputs: ANCHOR_WEATHER_EMAIL/ANCHOR_USERNAME, ANCHOR_WEATHER_PASSWORD/ANCHOR_PASSWORD, ANCHOR_WEATHER_NEW_PASSWORD/ANCHOR_NEW_PASSWORD"

/-- part_002 input validation condition. -/
def inputsMissing (v : Vars) : Bool :=
  falsy (inputUsername v) || falsy (inputPassword v) || falsy (inputNewPassword v)

/-- The names (as the fixed message spells them) of the required inputs
absent or empty in `v`. -/
def missingNames (v : Vars) : List String :=
  (if falsy (inputUsername v) then ["ANCHOR_WEATHER_EMAIL/ANCHOR_USERNAME"] else []) ++
  (if falsy (inputPassword v) then ["ANCHOR_WEATHER_PASSWORD/ANCHOR_PASSWORD"] else []) ++
  (if falsy (inputNewPassword v) then ["ANCHOR_WEATHER_NEW_PASSWORD/ANCHOR_NEW_PASSWORD"] else [])

/-- Exported entry function of part_002 (`WeatherComChangePassword`). -/
def WeatherComChangePassword (env : Env) (v : Vars) : List Ev × Res RunResult :=
  match env.acquire with
  | .error e => ([.acquire], .error e)
  | .ok _ =>
    let baseUrl := stripTrailingSlash (jsOrD v.baseUrl "https://weather.com")
    let lp := (inputPassword v).getD ""
    let cp := if inputCurrentPassword v = "" then lp else inputCurrentPassword v
    if inputsMissing v then
      ([.acquire, .log missingMsg], .ok ⟨false, missingMsg⟩)
    else
      match body env ((inputUsername v).getD "") lp cp ((inputNewPassword v).getD "")
          baseUrl [.acquire] with
      | (tr, .ok r) => (tr, .ok r)
      | (tr, .error e) =>
        (tr ++ [.log ("Flow failed: " ++ e)], .ok ⟨false, "Flow failed: " ++ e⟩)

end Weather

namespace Wiki

/-- Raw environment variables consumed by the Wikipedia flow embedded in the
README (`ANCHOR_WIKI_*`); each defaults to the empty string in the source. -/
structure Vars where
  username : Option String
  password : Option String
  newPassword : Option String
  totpCode : Option String
  baseUrl : Option String

/-- External outcomes of the Wikipedia flow at the granularity of its entry
function: browser/page acquisition, then the three awaited phases of the try
block (`login`, `navigateToChangePassword`, `changePassword`), each of which
may throw.  The internals of the three phases (selector fallbacks, 2FA
handling, identity re-verification) are outside what any claim about this
flow constrains, so each phase is one call site whose outcome the
environment supplies. -/
structure Env where
  acquire : Res Unit
  loginPhase : Res Unit
  navigatePhase : Res Unit
  changePhase : Res Unit

/-- The fixed missing-input message of the Wikipedia flow. -/
def missingMsg : String :=
  "Missing required inputs: ANCHOR_WIKI_USERNAME, ANCHOR_WIKI_PASSWORD, ANCHOR_WIKI_NEW_PASSWORD"

/-- Wikipedia input validation condition. -/
def inputsMissing (v : Vars) : Bool :=
  falsy v.username || falsy v.password || falsy v.newPassword

/-- The names of the required inputs absent or empty in `v`. -/
def missingNames (v : Vars) : List String :=
  (if falsy v.username then ["ANCHOR_WIKI_USERNAME"] else []) ++
  (if falsy v.password then ["ANCHOR_WIKI_PASSWORD"] else []) ++
  (if falsy v.newPassword then ["ANCHOR_WIKI_NEW_PASSWORD"] else [])

/-- Body of the Wikipedia try block: the three phases in order, then the
success result. -/
def body (env : Env) (tr : List Ev) : List Ev × Res RunResult :=
  chain (act tr [.phase "login"] env.loginPhase) fun tr =>
  chain (act tr [.phase "navigateToChangePassword"] env.navigatePhase) fun tr =>
  chain (act tr [.phase "changePassword"] env.changePhase) fun tr =>
  (tr, .ok ⟨true, "Logged in and submitted password change successfully."⟩)

/-- Exported entry function of the Wikipedia flow
(`ChangeWikipediaPassword`). -/
def ChangeWikipediaPassword (env : Env) (v : Vars) : List Ev × Res RunResult :=
  match env.acquire with
  | .error e => ([.acquire], .error e)
  | .ok _ =>
    if inputsMissing v then
      ([.acquire, .log missingMsg], .ok ⟨false, missingMsg⟩)
    else
      match body env [.acquire] with
      | (tr, .ok r) => (tr, .ok r)
      | (tr, .error e) =>
        (tr ++ [.log ("[error] " ++ e)], .ok ⟨false, "Failed during workflow: " ++ e⟩)

end Wiki

/-- Number of click events in a trace. -/
def countClicks (tr : List Ev) : Nat :=
  tr.countP (fun e => match e with | .click _ => true | _ => false)

/-- Number of fill events writing value `v` into selector `s` in a trace. -/
def fillCount (s : Sel) (v : String) (tr : List Ev) : Nat :=
  tr.countP (fun e => decide (e = Ev.fill s v))

/-- Whether an event is an operation on the browser page (as opposed to
session acquisition or console output). -/
def isPageOp : Ev → Bool
  | .acquire => false
  | .log _ => false
  | _ => true

/-- One blocking call site in the sources: which flow it belongs to, which
awaited primitive it is, and the timeout passed at that site (`none` when
the source passes no timeout argument, leaving the bound to whatever default
the external library may or may not apply). -/
structure CallSite where
  flow : String
  callee : String
  timeoutMs : Option Nat
  deriving DecidableEq, Repr

/-- Whether a call site's explicit timeout, if any, is positive. -/
def timeoutOk (s : CallSite) : Bool :=
  match s.timeoutMs with
  | some t => decide (0 < t)
  | none => true

/-- Transcription of every blocking (awaited) call site of the five flows,
with the timeout argument each site passes. -/
def blockingCallSites : List CallSite :=
  [⟨"fandom", "safeClick locator.waitFor visible (logout confirm)", none⟩,
   ⟨"fandom", "safeClick page.waitForNavigation load (caught)", none⟩,
   ⟨"fandom", "safeClick locator.click", none⟩,
   ⟨"fandom", "signIn page.waitForSelector signin-username visible", none⟩,
   ⟨"fandom", "signIn locator.click signin-username", none⟩,
   ⟨"fandom", "signIn locator.fill username", some 15000⟩,
   ⟨"fandom", "signIn locator.click signin-password", none⟩,
   ⟨"fandom", "signIn locator.fill password", none⟩,
   ⟨"fandom", "signIn page.waitForNavigation load", none⟩,
   ⟨"fandom", "signIn locator.click signin-submit", none⟩,
   ⟨"fandom", "page.goto loginUrl load", none⟩,
   ⟨"fandom", "page.waitForSelector signin-username visible (step 1)", none⟩,
   ⟨"fandom", "page.goto changePasswordUrl load", none⟩,
   ⟨"fandom", "page.waitForSelector settings-password visible", none⟩,
   ⟨"fandom", "newPwdField.click", none⟩,
   ⟨"fandom", "newPwdField.fill newPassword", none⟩,
   ⟨"fandom", "page.waitForNavigation load after new password (caught)", none⟩,
   ⟨"fandom", "newPwdField.press Enter", none⟩,
   ⟨"fandom", "page.waitForSelector signin-username re-auth", some 6000⟩,
   ⟨"fandom", "page.goto logoutUrl load", none⟩,
   ⟨"pcpartpicker", "safeGoto page.goto load", some 25000⟩,
   ⟨"pcpartpicker", "safeGoto page.waitForLoadState domcontentloaded (caught)", some 5000⟩,
   ⟨"pcpartpicker", "waitForVisible locator.waitFor visible", some 20000⟩,
   ⟨"pcpartpicker", "locator.fill username", none⟩,
   ⟨"pcpartpicker", "locator.fill password (login)", none⟩,
   ⟨"pcpartpicker", "page.waitForLoadState load after login (caught)", some 25000⟩,
   ⟨"pcpartpicker", "locator.click login submit", none⟩,
   ⟨"pcpartpicker", "locator.fill old password (change form)", none⟩,
   ⟨"pcpartpicker", "locator.fill new password 1", none⟩,
   ⟨"pcpartpicker", "locator.fill new password 2", none⟩,
   ⟨"pcpartpicker", "page.waitForLoadState load after change submit (caught)", some 25000⟩,
   ⟨"pcpartpicker", "locator.click change submit", none⟩,
   ⟨"zillow", "safeGoto page.goto load", some 30000⟩,
   ⟨"zillow", "expectVisible locator.waitFor visible", some 15000⟩,
   ⟨"zillow", "emailInput.fill", none⟩,
   ⟨"zillow", "emailInput.press Enter", none⟩,
   ⟨"zillow", "pwdInput.fill", none⟩,
   ⟨"zillow", "pwdInput.press Enter", none⟩,
   ⟨"zillow", "changePwdBtn.click", none⟩,
   ⟨"zillow", "currentPwdInput.fill", none⟩,
   ⟨"zillow", "newPwdInput.fill", none⟩,
   ⟨"zillow", "confirmPwdInput.fill", none⟩,
   ⟨"zillow", "applyBtn.click", none⟩,
   ⟨"zillow", "page.waitForURL www.zillow.com (caught)", some 15000⟩,
   ⟨"zillow", "passwordDialog.waitFor detached (caught)", some 15000⟩,
   ⟨"weather", "gotoWithLoad page.goto load", some 45000⟩,
   ⟨"weather", "waitVisible locator.waitFor visible", some 20000⟩,
   ⟨"weather", "waitVisible avatar after login", some 30000⟩,
   ⟨"weather", "isLoggedIn avatar.isVisible (caught)", some 3000⟩,
   ⟨"weather", "clickWithRetry locator.click", some 15000⟩,
   ⟨"weather", "clickWithRetry page.waitForTimeout", some 750⟩,
   ⟨"weather", "fillInput locator.fill clearing", none⟩,
   ⟨"weather", "fillInput locator.fill value", some 15000⟩,
   ⟨"weather", "page.waitForLoadState load after login (caught)", some 30000⟩,
   ⟨"weather", "page.waitForLoadState load step C (caught)", some 15000⟩,
   ⟨"weather", "waitFor detached changePasswordCurrentPassword (caught)", some 20000⟩,
   ⟨"weather", "waitFor hidden changePasswordCurrentPassword (caught)", some 8000⟩,
   ⟨"weather", "errorHint.innerText (caught)", none⟩,
   ⟨"wikipedia", "safeGoto page.goto load", some 45000⟩,
   ⟨"wikipedia", "safeWaitForLoad page.waitForLoadState load (caught)", some 45000⟩,
   ⟨"wikipedia", "waitVisible locator.waitFor visible", some 15000⟩,
   ⟨"wikipedia", "user.type and pass.type keystroke simulation", none⟩,
   ⟨"wikipedia", "submit.click login", none⟩,
   ⟨"wikipedia", "anchorClient.events.waitFor wikipedia-rotate-email-totp", none⟩,
   ⟨"wikipedia", "otp.type keystroke simulation", none⟩,
   ⟨"wikipedia", "2FA submitBtn.click or press Enter", none⟩,
   ⟨"wikipedia", "changePassword fills, type calls and clicks", none⟩]

/-- Whether the current URL parses to the same (non-empty) host as the
target URL: the condition of the Zillow `safeGoto` fallback. -/
def sameHost (url current : String) : Bool :=
  match urlHost url, urlHost current with
  | some th, some ch => th = ch
  | _, _ => false

namespace Fandom

/-- A sign-in invocation in which every call succeeds. -/
def signInOk : SignInEnv :=
  ⟨.ok (), .ok (), .ok (), .ok (), .ok (), .ok (), "https://community.fandom.com/"⟩

/-- An environment in which every external call succeeds and the re-auth
sign-in form reappears after the password change. -/
def envReauth : Env :=
  ⟨.ok (), .ok (), .ok (), signInOk, "https://community.fandom.com/",
   .ok (), .ok (), .ok (), .ok (), .ok (), .ok (), signInOk,
   .ok (), .ok (), .ok (), "https://community.fandom.com/wiki/Special:UserLogout"⟩

/-- An environment identical to `envReauth` except that browser/page
acquisition throws. -/
def envAcqFail : Env :=
  ⟨.error "TypeError: Cannot read properties of undefined (reading pages)",
   .ok (), .ok (), signInOk, "https://community.fandom.com/",
   .ok (), .ok (), .ok (), .ok (), .ok (), .ok (), signInOk,
   .ok (), .ok (), .ok (), "https://community.fandom.com/wiki/Special:UserLogout"⟩

/-- Complete inputs. -/
def varsOk : Vars := ⟨none, some "alice", some "OldP@ss1", some "NewP@ss2!"⟩

/-- Inputs with the username unset. -/
def varsMissing : Vars := ⟨none, none, some "OldP@ss1", some "NewP@ss2!"⟩

end Fandom

namespace Zillow

/-- An environment in which every external call succeeds. -/
def envOk : Env :=
  ⟨.ok (), ⟨.noResponse, "https://www.zillow.com/"⟩, .ok (), .ok (), .ok (),
   .ok (), .ok (), .ok (), ⟨.noResponse, "https://www.zillow.com/myzillow/profile/"⟩,
   .ok (), .ok (), .ok (), .ok (), .ok (), .ok (), .ok (), .ok (), .ok (), .ok (),
   true, true, ⟨.noResponse, "https://www.zillow.com/"⟩⟩

/-- An environment in which the run reaches the Apply click, after which no
success signal is observed (the URL wait and the dialog-detached wait both
time out) and the logout navigation fails on a foreign host. -/
def envSwallowed : Env :=
  ⟨.ok (), ⟨.noResponse, "https://www.zillow.com/"⟩, .ok (), .ok (), .ok (),
   .ok (), .ok (), .ok (), ⟨.noResponse, "https://www.zillow.com/myzillow/profile/"⟩,
   .ok (), .ok (), .ok (), .ok (), .ok (), .ok (), .ok (), .ok (), .ok (), .ok (),
   false, false, ⟨.threw "net::ERR_ABORTED", "https://challenge.example/denied"⟩⟩

/-- Complete inputs. -/
def varsOk : Vars :=
  ⟨some "alice@example.com", some "Curr3nt!", some "N3wPass!", none, none, none⟩

/-- Inputs whose email is present but empty. -/
def varsMissing : Vars :=
  ⟨some "", some "Curr3nt!", some "N3wPass!", none, none, none⟩

/-- Inputs with a five-character new password. -/
def varsShortNew : Vars :=
  ⟨some "alice@example.com", some "Curr3nt!", some "abcde", none, none, none⟩

/-- Inputs differing from `varsShortNew` only in the new password, which has
sixteen characters. -/
def varsLongNew : Vars :=
  ⟨some "alice@example.com", some "Curr3nt!", some "abcdefghijklmnop", none, none, none⟩

end Zillow

namespace Pcpp

/-- An environment in which every external call succeeds, login verification
passes, the final URL contains "/done/" but not the full done path, and the
confirmation text is absent. -/
def envDoneShort : Env :=
  ⟨.ok (), ⟨.ok (), .ok ()⟩, .ok (), .ok (), .ok (), .ok (), .ok (), .ok (), .ok (),
   true, false, "https://pcpartpicker.com/accounts/login/",
   ⟨.ok (), .ok ()⟩, .ok (), .ok (), .ok (), .ok (), .ok (), .ok (), .ok (), .ok (),
   "https://pcpartpicker.com/done/", false⟩

/-- Like `envDoneShort` but with the final URL on the full done path. -/
def envFullDone : Env :=
  ⟨.ok (), ⟨.ok (), .ok ()⟩, .ok (), .ok (), .ok (), .ok (), .ok (), .ok (), .ok (),
   true, false, "https://pcpartpicker.com/accounts/login/",
   ⟨.ok (), .ok ()⟩, .ok (), .ok (), .ok (), .ok (), .ok (), .ok (), .ok (), .ok (),
   "https://pcpartpicker.com/accounts/password/change/done/", false⟩

/-- Like `envDoneShort` but with a final URL not containing "/done/". -/
def envNotDone : Env :=
  ⟨.ok (), ⟨.ok (), .ok ()⟩, .ok (), .ok (), .ok (), .ok (), .ok (), .ok (), .ok (),
   true, false, "https://pcpartpicker.com/accounts/login/",
   ⟨.ok (), .ok ()⟩, .ok (), .ok (), .ok (), .ok (), .ok (), .ok (), .ok (), .ok (),
   "https://pcpartpicker.com/accounts/password/change/", false⟩

/-- Complete inputs (username via ANCHOR_USERNAME, password via
ANCHOR_OLD_PASSWORD, new password via ANCHOR_NEW_PASSWORD). -/
def varsOk : Vars :=
  ⟨none, none, some "alice", none, none, some "P@ss1", none, some "P@ss2!"⟩

/-- Inputs with every required variable unset. -/
def varsMissing : Vars :=
  ⟨none, none, none, none, none, none, none, none⟩

end Pcpp

namespace Weather

/-- An environment in which every external call succeeds (already logged
in, avatar click reaches settings, dialog detaches after save). -/
def envOk : Env :=
  ⟨.ok (), ⟨.ok (), "https://weather.com/"⟩, true, ⟨.ok (), "https://weather.com/login"⟩,
   .ok (), .ok (), .ok (), .ok (), .ok (), .ok (), fun _ => .ok (),
   .ok (), "https://weather.com/", .ok (), fun _ => .ok (), .ok (),
   "https://weather.com/member/settings", ⟨.ok (), "https://weather.com/member/settings"⟩,
   .ok (), fun _ => .ok (), .ok (), .ok (), .ok (), .ok (), .ok (), .ok (),
   .ok (), .ok (), .ok (), fun _ => .ok (), .ok (), .ok (), "Unknown error"⟩

/-- Inputs with both password variables unset. -/
def varsMissing : Vars :=
  ⟨none, some "alice@example.com", none, none, none, some "N3wPass!", none, none, none⟩

end Weather

namespace Wiki

/-- An environment in which every phase succeeds. -/
def envOk : Env := ⟨.ok (), .ok (), .ok (), .ok ()⟩

/-- Inputs whose password is empty. -/
def varsMissing : Vars := ⟨some "alice", some "", some "N3wPass!", none, none⟩

end Wiki

section Lemmas

/-- Computation rule: a successful step continues the flow. -/
@[simp] theorem chain_ok {α : Type} (tr : List Ev) (u : Unit)
    (k : List Ev → List Ev × Res α) : chain (tr, .ok u) k = k tr := rfl

/-- Computation rule: a thrown step short-circuits the flow. -/
@[simp] theorem chain_error {α : Type} (tr : List Ev) (e : String)
    (k : List Ev → List Ev × Res α) : chain (tr, .error e) k = (tr, .error e) := rfl

/-- Unfolding rule for `act`. -/
@[simp] theorem act_eq (tr evs : List Ev) (r : Res Unit) :
    act tr evs r = (tr ++ evs, r) := rfl

/-- Click counting distributes over trace concatenation. -/
theorem countClicks_append (a b : List Ev) :
    countClicks (a ++ b) = countClicks a + countClicks b :=
  List.countP_append _ _ _

/-- Soundness of the substring check with respect to list infixes. -/
theorem occursIn_iff (pat : List Char) :
    ∀ l : List Char, occursIn pat l = true ↔ pat <:+: l := by
  intro l
  induction l with
  | nil =>
    simp [occursIn, List.isEmpty_iff]
  | cons c cs ih =>
    simp [occursIn, ih, List.infix_cons_iff]

/-- Soundness of `containsStr` with respect to list infixes. -/
theorem containsStr_iff (s pat : String) :
    containsStr s pat = true ↔ pat.data <:+: s.data :=
  occursIn_iff pat.data s.data

/-- Log extraction distributes over trace concatenation. -/
theorem logsOf_append (a b : List Ev) : logsOf (a ++ b) = logsOf a ++ logsOf b :=
  List.filterMap_append a b _

/-- Log extraction keeps log lines. -/
@[simp] theorem logsOf_log_cons (s : String) (tr : List Ev) :
    logsOf (Ev.log s :: tr) = s :: logsOf tr := rfl

/-- Log extraction drops acquisition events. -/
@[simp] theorem logsOf_acquire_cons (tr : List Ev) :
    logsOf (Ev.acquire :: tr) = logsOf tr := rfl

/-- Log extraction drops navigation events. -/
@[simp] theorem logsOf_goto_cons (u : String) (tr : List Ev) :
    logsOf (Ev.goto u :: tr) = logsOf tr := rfl

/-- Log extraction drops visibility waits. -/
@[simp] theorem logsOf_waitSel_cons (s : Sel) (tr : List Ev) :
    logsOf (Ev.waitSel s :: tr) = logsOf tr := rfl

/-- Log extraction drops load-state waits. -/
@[simp] theorem logsOf_waitState_cons (s : String) (tr : List Ev) :
    logsOf (Ev.waitState s :: tr) = logsOf tr := rfl

/-- Log extraction drops navigation waits. -/
@[simp] theorem logsOf_waitNav_cons (tr : List Ev) :
    logsOf (Ev.waitNav :: tr) = logsOf tr := rfl

/-- Log extraction drops URL waits. -/
@[simp] theorem logsOf_waitUrl_cons (tr : List Ev) :
    logsOf (Ev.waitUrl :: tr) = logsOf tr := rfl

/-- Log extraction drops detach waits. -/
@[simp] theorem logsOf_waitDetached_cons (s : Sel) (tr : List Ev) :
    logsOf (Ev.waitDetached s :: tr) = logsOf tr := rfl

/-- Log extraction drops hidden waits. -/
@[simp] theorem logsOf_waitHidden_cons (s : Sel) (tr : List Ev) :
    logsOf (Ev.waitHidden s :: tr) = logsOf tr := rfl

/-- Log extraction drops clicks. -/
@[simp] theorem logsOf_click_cons (s : Sel) (tr : List Ev) :
    logsOf (Ev.click s :: tr) = logsOf tr := rfl

/-- Log extraction drops fills (the values written never enter the log). -/
@[simp] theorem logsOf_fill_cons (s : Sel) (v : String) (tr : List Ev) :
    logsOf (Ev.fill s v :: tr) = logsOf tr := rfl

/-- Log extraction drops key presses. -/
@[simp] theorem logsOf_press_cons (s : Sel) (k : String) (tr : List Ev) :
    logsOf (Ev.press s k :: tr) = logsOf tr := rfl

/-- Log extraction drops visibility queries. -/
@[simp] theorem logsOf_isVisibleQ_cons (s : Sel) (tr : List Ev) :
    logsOf (Ev.isVisibleQ s :: tr) = logsOf tr := rfl

/-- Log extraction drops text queries. -/
@[simp] theorem logsOf_innerTextQ_cons (s : Sel) (tr : List Ev) :
    logsOf (Ev.innerTextQ s :: tr) = logsOf tr := rfl

/-- Log extraction drops sleeps. -/
@[simp] theorem logsOf_waitMs_cons (n : Nat) (tr : List Ev) :
    logsOf (Ev.waitMs n :: tr) = logsOf tr := rfl

/-- Log extraction drops phase markers. -/
@[simp] theorem logsOf_phase_cons (s : String) (tr : List Ev) :
    logsOf (Ev.phase s :: tr) = logsOf tr := rfl

/-- Log extraction of the empty trace. -/
@[simp] theorem logsOf_nil : logsOf [] = [] := rfl

/-- Fill counting distributes over trace concatenation. -/
theorem fillCount_append (s : Sel) (v : String) (a b : List Ev) :
    fillCount s v (a ++ b) = fillCount s v a + fillCount s v b :=
  List.countP_append _ _ _

/-- A bound on a count is preserved through `chain` when the step and the
continuation each preserve it. -/
theorem countP_chain_le {α : Type} (pred : Ev → Bool) (s : List Ev × Res Unit)
    (k : List Ev → List Ev × Res α) (B : Nat)
    (h1 : s.1.countP pred ≤ B)
    (h2 : ∀ tr, tr.countP pred ≤ B → ((k tr).1.countP pred) ≤ B) :
    ((chain s k).1.countP pred) ≤ B := by
  rcases s with ⟨tr, r⟩
  cases r with
  | error e => simpa [chain] using h1
  | ok u => exact h2 tr h1

/-- A count bound may rise from `B` to `B2` across a `chain` step. -/
theorem countP_chain_le2 {α : Type} (pred : Ev → Bool) (s : List Ev × Res Unit)
    (k : List Ev → List Ev × Res α) (B B2 : Nat) (hB : B ≤ B2)
    (h1 : s.1.countP pred ≤ B)
    (h2 : ∀ tr, tr.countP pred ≤ B → ((k tr).1.countP pred) ≤ B2) :
    ((chain s k).1.countP pred) ≤ B2 := by
  rcases s with ⟨tr, r⟩
  cases r with
  | error e => simpa [chain] using le_trans h1 hB
  | ok u => exact h2 tr h1

/-- Two runs of the same step that agree on logs so far, run against the
same external outcome, continue to agree on logs and on the final result. -/
theorem chain_congr {α : Type} (s1 s2 : List Ev × Res Unit)
    (k1 k2 : List Ev → List Ev × Res α)
    (hlog : logsOf s1.1 = logsOf s2.1) (hres : s1.2 = s2.2)
    (hk : ∀ tr1 tr2, logsOf tr1 = logsOf tr2 →
      logsOf (k1 tr1).1 = logsOf (k2 tr2).1 ∧ (k1 tr1).2 = (k2 tr2).2) :
    logsOf (chain s1 k1).1 = logsOf (chain s2 k2).1 ∧
      (chain s1 k1).2 = (chain s2 k2).2 := by
  rcases s1 with ⟨t1, r1⟩
  rcases s2 with ⟨t2, r2⟩
  cases r1 with
  | error e =>
    cases r2 with
    | error e2 => simp_all [chain]
    | ok u => simp_all [chain]
  | ok u =>
    cases r2 with
    | error e2 => simp_all [chain]
    | ok u2 => exact hk t1 t2 hlog

/-- A URL containing the full done path also contains "/done/". -/
theorem containsStr_done_of_full (s : String)
    (h : containsStr s "/accounts/password/change/done/" = true) :
    containsStr s "/done/" = true := by
  rw [containsStr_iff] at h ⊢
  exact List.IsInfix.trans ((occursIn_iff _ _).mp (by decide)) h

end Lemmas

section ClickRetry

/-- Counting clicks after one failed attempt round. -/
theorem countClicks_failed_round (tr : List Ev) (s : Sel) (x : String) :
    countClicks (tr ++ [.click s, .log x, .waitMs 750]) = countClicks tr + 1 := by
  rw [countClicks_append]; rfl

/-- If every remaining attempt fails, the retry loop performs exactly the
remaining number of clicks and throws the final attempt's error. -/
theorem clickRetryAux_all_fail (oracle : Nat → Res Unit) (s : Sel) (f : Nat → String) :
    ∀ (n i : Nat) (last : String) (tr : List Ev), 0 < n →
      (∀ j, j < n → oracle (i + j) = .error (f (i + j))) →
      ∃ tr', Weather.clickRetryAux oracle s i n last tr = (tr', .error (f (i + n - 1))) ∧
        countClicks tr' = countClicks tr + n := by
  intro n
  induction n with
  | zero => intro i last tr h; exact absurd h (by simp)
  | succ n ih =>
    intro i last tr _ hfail
    have h0 : oracle i = .error (f i) := by simpa using hfail 0 (Nat.succ_pos n)
    cases n with
    | zero =>
      refine ⟨tr ++ [.click s,
          .log ("[clickWithRetry] Attempt " ++ toString (i + 1) ++ " failed for " ++ s.css ++ ". Retrying..."),
          .waitMs 750] ++ [.log ("[clickWithRetry] All attempts failed for " ++ s.css)], ?_, ?_⟩
      · simp [Weather.clickRetryAux, h0]
      · rw [countClicks_append, countClicks_failed_round]; rfl
    | succ m =>
      have hfail' : ∀ j, j < m + 1 → oracle (i + 1 + j) = .error (f (i + 1 + j)) := by
        intro j hj
        have h := hfail (j + 1) (by omega)
        have harg : i + (j + 1) = i + 1 + j := by omega
        rw [harg] at h
        exact h
      obtain ⟨tr', h1, h2⟩ := ih (i + 1) (f i)
        (tr ++ [.click s,
          .log ("[clickWithRetry] Attempt " ++ toString (i + 1) ++ " failed for " ++ s.css ++ ". Retrying..."),
          .waitMs 750]) (Nat.succ_pos m) hfail'
      refine ⟨tr', ?_, ?_⟩
      · have step : Weather.clickRetryAux oracle s i (m + 1 + 1) last tr =
            Weather.clickRetryAux oracle s (i + 1) (m + 1) (f i)
              (tr ++ [.click s,
                .log ("[clickWithRetry] Attempt " ++ toString (i + 1) ++ " failed for " ++ s.css ++ ". Retrying..."),
                .waitMs 750]) := by
          simp [Weather.clickRetryAux, h0]
        rw [step, h1]
        have harg : i + 1 + (m + 1) - 1 = i + (m + 1 + 1) - 1 := by omega
        rw [harg]
      · rw [h2, countClicks_failed_round]
        omega

/-- If the attempt at (0-based) offset k succeeds and every earlier attempt
fails, the retry loop performs exactly k + 1 clicks and returns normally. -/
theorem clickRetryAux_success (oracle : Nat → Res Unit) (s : Sel) :
    ∀ (k n i : Nat) (last : String) (tr : List Ev), k < n →
      (∀ j, j < k → ∃ e, oracle (i + j) = .error e) → oracle (i + k) = .ok () →
      ∃ tr', Weather.clickRetryAux oracle s i n last tr = (tr', .ok ()) ∧
        countClicks tr' = countClicks tr + (k + 1) := by
  intro k
  induction k with
  | zero =>
    intro n i last tr hkn hfail hok
    cases n with
    | zero => exact absurd hkn (by simp)
    | succ m =>
      have h0 : oracle i = .ok () := by simpa using hok
      refine ⟨tr ++ [.click s], ?_, ?_⟩
      · simp [Weather.clickRetryAux, h0]
      · rw [countClicks_append]; rfl
  | succ k ih =>
    intro n i last tr hkn hfail hok
    cases n with
    | zero => exact absurd hkn (by simp)
    | succ m =>
      obtain ⟨e0, he0⟩ := hfail 0 (Nat.succ_pos k)
      have h0 : oracle i = .error e0 := by simpa using he0
      have hfail' : ∀ j, j < k → ∃ e, oracle (i + 1 + j) = .error e := by
        intro j hj
        obtain ⟨e, he⟩ := hfail (j + 1) (by omega)
        have harg : i + (j + 1) = i + 1 + j := by omega
        rw [harg] at he
        exact ⟨e, he⟩
      have hok' : oracle (i + 1 + k) = .ok () := by
        have harg : i + (k + 1) = i + 1 + k := by omega
        rw [harg] at hok
        exact hok
      obtain ⟨tr', h1, h2⟩ := ih m (i + 1) e0
        (tr ++ [.click s,
          .log ("[clickWithRetry] Attempt " ++ toString (i + 1) ++ " failed for " ++ s.css ++ ". Retrying..."),
          .waitMs 750]) (by omega) hfail' hok'
      refine ⟨tr', ?_, ?_⟩
      · have step : Weather.clickRetryAux oracle s i (m + 1) last tr =
            Weather.clickRetryAux oracle s (i + 1) m e0
              (tr ++ [.click s,
                .log ("[clickWithRetry] Attempt " ++ toString (i + 1) ++ " failed for " ++ s.css ++ ". Retrying..."),
                .waitMs 750]) := by
          simp [Weather.clickRetryAux, h0]
        rw [step, h1]
      · rw [h2, countClicks_failed_round]
        omega

end ClickRetry

section FandomReauth

/-- A sign-in adds at most one fill of the sign-in password field with value
`np`, and only when it is invoked with password `np`. -/
theorem fillCount_signInT_le (e : Fandom.SignInEnv) (u pw np : String) (tr : List Ev) :
    fillCount Sel.signinPassword np (Fandom.signInT e u pw tr).1 ≤
      fillCount Sel.signinPassword np tr + (if pw = np then 1 else 0) := by
  unfold Fandom.signInT
  simp only [fillCount, act_eq]
  refine countP_chain_le2 _ _ _
    (List.countP (fun x => decide (x = Ev.fill Sel.signinPassword np)) tr) _
    (Nat.le_add_right _ _) (by simp [List.countP_append, List.countP_cons]) ?_
  intro tr1 h1
  refine countP_chain_le2 _ _ _
    (List.countP (fun x => decide (x = Ev.fill Sel.signinPassword np)) tr) _
    (Nat.le_add_right _ _) (by simp [List.countP_append, List.countP_cons, h1]) ?_
  intro tr2 h2
  refine countP_chain_le2 _ _ _
    (List.countP (fun x => decide (x = Ev.fill Sel.signinPassword np)) tr) _
    (Nat.le_add_right _ _) (by simp [List.countP_append, List.countP_cons, h2]) ?_
  intro tr3 h3
  refine countP_chain_le2 _ _ _
    (List.countP (fun x => decide (x = Ev.fill Sel.signinPassword np)) tr) _
    (Nat.le_add_right _ _) (by simp [List.countP_append, List.countP_cons, h3]) ?_
  intro tr4 h4
  refine countP_chain_le2 _ _ _
    (List.countP (fun x => decide (x = Ev.fill Sel.signinPassword np)) tr + (if pw = np then 1 else 0)) _
    (le_refl _) ?_ ?_
  · by_cases hpw : pw = np <;>
      simp [List.countP_append, List.countP_cons, hpw, h4]
  intro tr5 h5
  refine countP_chain_le2 _ _ _ _ _ (le_refl _)
    (by simp [List.countP_append, List.countP_cons, h5]) ?_
  intro tr6 h6
  simp [List.countP_append, List.countP_cons, h6]

/-- The logout steps add no fill of the sign-in password field. -/
theorem fillCount_finish_le (env : Fandom.Env) (urls : Fandom.Urls) (np : String)
    (tr : List Ev) :
    fillCount Sel.signinPassword np (Fandom.finish env urls tr).1 ≤
      fillCount Sel.signinPassword np tr := by
  unfold Fandom.finish
  simp only [fillCount, act_eq]
  refine countP_chain_le2 _ _ _ _ _ (le_refl _)
    (by simp [List.countP_append, List.countP_cons]) ?_
  intro tr1 h1
  refine countP_chain_le2 _ _ _ _ _ (le_refl _)
    (by simp [List.countP_append, List.countP_cons, h1]) ?_
  intro tr2 h2
  refine countP_chain_le2 _ _ _ _ _ (le_refl _)
    (by simp [List.countP_append, List.countP_cons, h2]) ?_
  intro tr3 h3
  simp [List.countP_append, List.countP_cons, h3]

/-- STEP 5 plus STEP 6 add at most one fill of the sign-in password field
with the new password, under every behavior of the environment. -/
theorem fillCount_reauth_le (env : Fandom.Env) (u np : String) (urls : Fandom.Urls)
    (tr : List Ev) :
    fillCount Sel.signinPassword np (Fandom.reauthAndFinish env u np urls tr).1 ≤
      fillCount Sel.signinPassword np tr + 1 := by
  unfold Fandom.reauthAndFinish
  cases hre : env.reauthWait with
  | error e =>
    refine le_trans (fillCount_finish_le _ _ _ _) ?_
    simp [fillCount, List.countP_append, List.countP_cons]
  | ok u0 =>
    rcases hs : Fandom.signInT env.login2 u np
        (tr ++ [.waitSel .signinUsername,
          .log "Re-authentication detected after password change. Signing in with NEW password."]) with ⟨tr3, r3⟩
    have hsi : fillCount Sel.signinPassword np tr3 ≤ fillCount Sel.signinPassword np tr + 1 := by
      have h := fillCount_signInT_le env.login2 u np np
        (tr ++ [.waitSel .signinUsername,
          .log "Re-authentication detected after password change. Signing in with NEW password."])
      rw [hs] at h
      simpa [fillCount, List.countP_append, List.countP_cons] using h
    cases r3 with
    | ok u1 =>
      simp only [hs]
      exact le_trans (fillCount_finish_le _ _ _ _) hsi
    | error e1 =>
      simp only [hs]
      refine le_trans (fillCount_finish_le _ _ _ _) ?_
      simpa [fillCount, List.countP_append, List.countP_cons] using hsi

/-- The whole try-block body adds at most one fill of the sign-in password
field with the new password when the current and new passwords differ. -/
theorem fillCount_body_le (env : Fandom.Env) (u p np : String) (hneq : p ≠ np)
    (urls : Fandom.Urls) (tr : List Ev) :
    fillCount Sel.signinPassword np (Fandom.body env u p np urls tr).1 ≤
      fillCount Sel.signinPassword np tr + 1 := by
  unfold Fandom.body
  simp only [fillCount, act_eq]
  refine countP_chain_le2 _ _ _
    (List.countP (fun x => decide (x = Ev.fill Sel.signinPassword np)) tr) _
    (Nat.le_add_right _ _) (by simp [List.countP_append, List.countP_cons]) ?_
  intro tr1 h1
  refine countP_chain_le2 _ _ _
    (List.countP (fun x => decide (x = Ev.fill Sel.signinPassword np)) tr) _
    (Nat.le_add_right _ _) (by simp [List.countP_append, List.countP_cons, h1]) ?_
  intro tr2 h2
  refine countP_chain_le2 _ _ _
    (List.countP (fun x => decide (x = Ev.fill Sel.signinPassword np)) tr) _
    (Nat.le_add_right _ _) ?_ ?_
  · refine le_trans (fillCount_signInT_le env.login1 u p np _) ?_
    simp [fillCount, List.countP_append, List.countP_cons, hneq, h2]
  intro tr3 h3
  refine countP_chain_le2 _ _ _
    (List.countP (fun x => decide (x = Ev.fill Sel.signinPassword np)) tr) _
    (Nat.le_add_right _ _) ?_ ?_
  · split <;> simp [List.countP_append, List.countP_cons, h3]
  intro tr4 h4
  refine countP_chain_le2 _ _ _
    (List.countP (fun x => decide (x = Ev.fill Sel.signinPassword np)) tr) _
    (Nat.le_add_right _ _) (by simp [List.countP_append, List.countP_cons, h4]) ?_
  intro tr5 h5
  refine countP_chain_le2 _ _ _
    (List.countP (fun x => decide (x = Ev.fill Sel.signinPassword np)) tr) _
    (Nat.le_add_right _ _) (by simp [List.countP_append, List.countP_cons, h5]) ?_
  intro tr6 h6
  refine countP_chain_le2 _ _ _
    (List.countP (fun x => decide (x = Ev.fill Sel.signinPassword np)) tr) _
    (Nat.le_add_right _ _) (by simp [List.countP_append, List.countP_cons, h6]) ?_
  intro tr7 h7
  refine countP_chain_le2 _ _ _
    (List.countP (fun x => decide (x = Ev.fill Sel.signinPassword np)) tr) _
    (Nat.le_add_right _ _) (by simp [List.countP_append, List.countP_cons, h7]) ?_
  intro tr8 h8
  have h := fillCount_reauth_le env u np urls tr8
  simp only [fillCount] at h
  exact le_trans h (by omega)

end FandomReauth

section ValidationLemmas

/-- Fandom validation fires exactly when some required name is missing. -/
theorem fandom_missing_iff (v : Fandom.Vars) :
    Fandom.inputsMissing v = true ↔ Fandom.missingNames v ≠ [] := by
  unfold Fandom.inputsMissing Fandom.missingNames
  by_cases h1 : falsy v.username <;> by_cases h2 : falsy v.password <;>
    by_cases h3 : falsy v.newPassword <;> simp_all

/-- Every missing Fandom input name occurs in the fixed failure message. -/
theorem fandom_names_in_msg (v : Fandom.Vars) :
    ∀ n ∈ Fandom.missingNames v, containsStr Fandom.missingMsg n = true := by
  intro n hn
  unfold Fandom.missingNames at hn
  have h : n = "ANCHOR_FANDOM_USERNAME" ∨ n = "ANCHOR_FANDOM_PASSWORD" ∨
      n = "ANCHOR_FANDOM_NEW_PASSWORD" := by
    by_cases h1 : falsy v.username <;> by_cases h2 : falsy v.password <;>
      by_cases h3 : falsy v.newPassword <;> simp_all <;> tauto
  rcases h with rfl | rfl | rfl <;> decide

/-- Zillow validation fires exactly when some required name is missing. -/
theorem zillow_missing_iff (v : Zillow.Vars) :
    Zillow.inputsMissing v = true ↔ Zillow.missingNames v ≠ [] := by
  unfold Zillow.inputsMissing Zillow.missingNames
  by_cases h1 : falsy v.email <;> by_cases h2 : falsy v.currentPassword <;>
    by_cases h3 : falsy v.newPassword <;> simp_all

/-- Every missing Zillow input name occurs in the assembled failure
message. -/
theorem zillow_names_in_msg (v : Zillow.Vars) :
    ∀ n ∈ Zillow.missingNames v,
      containsStr ("Missing required inputs: " ++ String.intercalate ", " (Zillow.missingNames v)) n = true := by
  unfold Zillow.missingNames
  by_cases h1 : falsy v.email <;> by_cases h2 : falsy v.currentPassword <;>
    by_cases h3 : falsy v.newPassword <;> simp only [h1, h2, h3, if_true, if_false] <;> decide

/-- Every missing PCPartPicker input name occurs in the assembled failure
message. -/
theorem pcpp_names_in_msg (v : Pcpp.Vars) :
    ∀ n ∈ Pcpp.listMissingInputs v,
      containsStr ("Missing required inputs: " ++ String.intercalate ", " (Pcpp.listMissingInputs v)) n = true := by
  unfold Pcpp.listMissingInputs
  by_cases h1 : falsy (Pcpp.inputUsername v) <;> by_cases h2 : falsy (Pcpp.inputOldPassword v) <;>
    by_cases h3 : falsy v.newPassword <;> simp only [h1, h2, h3, if_true, if_false] <;> decide

/-- Weather validation fires exactly when some required name is missing. -/
theorem weather_missing_iff (v : Weather.Vars) :
    Weather.inputsMissing v = true ↔ Weather.missingNames v ≠ [] := by
  unfold Weather.inputsMissing Weather.missingNames
  by_cases h1 : falsy (Weather.inputUsername v) <;> by_cases h2 : falsy (Weather.inputPassword v) <;>
    by_cases h3 : falsy (Weather.inputNewPassword v) <;> simp_all

/-- Every missing weather.com input name occurs in the fixed failure
message. -/
theorem weather_names_in_msg (v : Weather.Vars) :
    ∀ n ∈ Weather.missingNames v, containsStr Weather.missingMsg n = true := by
  intro n hn
  unfold Weather.missingNames at hn
  have h : n = "ANCHOR_WEATHER_EMAIL/ANCHOR_USERNAME" ∨ n = "ANCHOR_WEATHER_PASSWORD/ANCHOR_PASSWORD" ∨
      n = "ANCHOR_WEATHER_NEW_PASSWORD/ANCHOR_NEW_PASSWORD" := by
    by_cases h1 : falsy (Weather.inputUsername v) <;> by_cases h2 : falsy (Weather.inputPassword v) <;>
      by_cases h3 : falsy (Weather.inputNewPassword v) <;> simp_all <;> tauto
  rcases h with rfl | rfl | rfl <;> decide

/-- Wikipedia validation fires exactly when some required name is missing. -/
theorem wiki_missing_iff (v : Wiki.Vars) :
    Wiki.inputsMissing v = true ↔ Wiki.missingNames v ≠ [] := by
  unfold Wiki.inputsMissing Wiki.missingNames
  by_cases h1 : falsy v.username <;> by_cases h2 : falsy v.password <;>
    by_cases h3 : falsy v.newPassword <;> simp_all

/-- Every missing Wikipedia input name occurs in the fixed failure
message. -/
theorem wiki_names_in_msg (v : Wiki.Vars) :
    ∀ n ∈ Wiki.missingNames v, containsStr Wiki.missingMsg n = true := by
  intro n hn
  unfold Wiki.missingNames at hn
  have h : n = "ANCHOR_WIKI_USERNAME" ∨ n = "ANCHOR_WIKI_PASSWORD" ∨
      n = "ANCHOR_WIKI_NEW_PASSWORD" := by
    by_cases h1 : falsy v.username <;> by_cases h2 : falsy v.password <;>
      by_cases h3 : falsy v.newPassword <;> simp_all <;> tauto
  rcases h with rfl | rfl | rfl <;> decide

end ValidationLemmas

section NavLemmas

/-- The verdict of the Zillow `safeGoto` does not depend on the label or the
trace accumulated so far. -/
theorem safeGoto_snd (nav : Zillow.NavEnv) (url label : String) (tr : List Ev) :
    (Zillow.safeGoto nav url label tr).2 = Zillow.navReached nav url := by
  unfold Zillow.navReached Zillow.safeGoto
  rcases nav with ⟨o, cu⟩
  cases o with
  | noResponse => rfl
  | response ok st stx => cases ok <;> simp
  | threw err =>
    simp only []
    rcases urlHost url with _ | th <;> rcases urlHost cu with _ | ch <;> simp
    by_cases h : th = ch <;> simp [h]

/-- Eta expansion of the Zillow `safeGoto` through its verdict. -/
theorem safeGoto_eta (nav : Zillow.NavEnv) (url label : String) (tr : List Ev) :
    Zillow.safeGoto nav url label tr =
      ((Zillow.safeGoto nav url label tr).1, Zillow.navReached nav url) := by
  rw [← safeGoto_snd nav url label tr]

/-- Two runs of the Zillow `safeGoto` against the same outcome and target,
whose traces so far have equal logs, produce equal logs and the same
verdict. -/
theorem safeGoto_logs_congr (nav : Zillow.NavEnv) (url label : String)
    (tr1 tr2 : List Ev) (h : logsOf tr1 = logsOf tr2) :
    logsOf (Zillow.safeGoto nav url label tr1).1 = logsOf (Zillow.safeGoto nav url label tr2).1 ∧
    (Zillow.safeGoto nav url label tr1).2 = (Zillow.safeGoto nav url label tr2).2 := by
  simp only [logsOf] at h
  unfold Zillow.safeGoto
  rcases nav with ⟨o, cu⟩
  cases o with
  | noResponse => simp [logsOf_append, logsOf, h]
  | response ok st stx => cases ok <;> simp [logsOf_append, logsOf, h]
  | threw err =>
    simp only []
    rcases urlHost url with _ | th <;> rcases urlHost cu with _ | ch <;>
      simp [logsOf_append, logsOf, h]
    by_cases hh : th = ch <;> simp [hh, logsOf_append, logsOf, h]

/-- Two runs of the Zillow `expectVisible` against the same outcome, whose
traces so far have equal logs, produce equal logs and the same verdict. -/
theorem expectVisible_logs_congr (r : Res Unit) (s : Sel) (d : String) (t : Nat)
    (tr1 tr2 : List Ev) (h : logsOf tr1 = logsOf tr2) :
    logsOf (Zillow.expectVisible r s d t tr1).1 = logsOf (Zillow.expectVisible r s d t tr2).1 ∧
    (Zillow.expectVisible r s d t tr1).2 = (Zillow.expectVisible r s d t tr2).2 := by
  simp only [logsOf] at h
  unfold Zillow.expectVisible
  cases r <;> simp [logsOf_append, logsOf, h]

/-- Log-level noninterference of the Zillow try-block body: two runs against
the same environment, differing only in credential values whose masked forms
coincide, produce equal console logs and equal results, whatever the
environment does. -/
theorem zillow_body_logs_congr (env : Zillow.Env)
    (e1 c1 n1 e2 c2 n2 startUrl profileUrl logoutUrl : String)
    (hme : maskSecret (some e1) = maskSecret (some e2))
    (hmc : maskSecret (some c1) = maskSecret (some c2))
    (hmn : maskSecret (some n1) = maskSecret (some n2)) :
    ∀ tr1 tr2, logsOf tr1 = logsOf tr2 →
      logsOf (Zillow.body env e1 c1 n1 startUrl profileUrl logoutUrl tr1).1 =
        logsOf (Zillow.body env e2 c2 n2 startUrl profileUrl logoutUrl tr2).1 ∧
      (Zillow.body env e1 c1 n1 startUrl profileUrl logoutUrl tr1).2 =
        (Zillow.body env e2 c2 n2 startUrl profileUrl logoutUrl tr2).2 := by
  intro tr1 tr2 htr
  unfold Zillow.body
  obtain ⟨hl1, hv1⟩ := safeGoto_logs_congr env.nav1 startUrl "Open login page" tr1 tr2 htr
  rcases p1 : Zillow.safeGoto env.nav1 startUrl "Open login page" tr1 with ⟨ta1, b1⟩
  rcases q1 : Zillow.safeGoto env.nav1 startUrl "Open login page" tr2 with ⟨tb1, d1⟩
  rw [p1, q1] at hl1 hv1
  simp only [] at hl1 hv1
  subst hv1
  cases b1 with
  | false => exact ⟨hl1, rfl⟩
  | true =>
  dsimp only
  obtain ⟨hl2, hv2⟩ := expectVisible_logs_congr env.emailVis .zIdentifier
    "Email input [data-testid=\"identifier-input\"]" 15000 ta1 tb1 hl1
  rcases p2 : Zillow.expectVisible env.emailVis .zIdentifier
    "Email input [data-testid=\"identifier-input\"]" 15000 ta1 with ⟨ta2, b2⟩
  rcases q2 : Zillow.expectVisible env.emailVis .zIdentifier
    "Email input [data-testid=\"identifier-input\"]" 15000 tb1 with ⟨tb2, d2⟩
  rw [p2, q2] at hl2 hv2
  simp only [] at hl2 hv2
  subst hv2
  cases b2 with
  | false => exact ⟨hl2, rfl⟩
  | true =>
  dsimp only
  refine chain_congr _ _ _ _ (by simp [act_eq, logsOf_append, hl2, hme]) rfl ?_
  intro u1 u2 hu
  dsimp only
  refine chain_congr _ _ _ _ (by simp [act_eq, logsOf_append, hu]) rfl ?_
  intro u3 u4 hu2
  dsimp only
  obtain ⟨hl3, hv3⟩ := expectVisible_logs_congr env.pwdVis .zPassword
    "Password input #password" 15000 u3 u4 hu2
  rcases p3 : Zillow.expectVisible env.pwdVis .zPassword "Password input #password" 15000 u3 with ⟨ta3, b3⟩
  rcases q3 : Zillow.expectVisible env.pwdVis .zPassword "Password input #password" 15000 u4 with ⟨tb3, d3⟩
  rw [p3, q3] at hl3 hv3
  simp only [] at hl3 hv3
  subst hv3
  cases b3 with
  | false => exact ⟨hl3, rfl⟩
  | true =>
  dsimp only
  refine chain_congr _ _ _ _ (by simp [act_eq, logsOf_append, hl3, hmc]) rfl ?_
  intro u5 u6 hu3
  dsimp only
  refine chain_congr _ _ _ _ (by simp [act_eq, logsOf_append, hu3]) rfl ?_
  intro u7 u8 hu4
  dsimp only
  obtain ⟨hl4, hv4⟩ := safeGoto_logs_congr env.nav2 profileUrl "Open My Profile" u7 u8 hu4
  rcases p4 : Zillow.safeGoto env.nav2 profileUrl "Open My Profile" u7 with ⟨ta4, b4⟩
  rcases q4 : Zillow.safeGoto env.nav2 profileUrl "Open My Profile" u8 with ⟨tb4, d4⟩
  rw [p4, q4] at hl4 hv4
  simp only [] at hl4 hv4
  subst hv4
  cases b4 with
  | false => exact ⟨hl4, rfl⟩
  | true =>
  dsimp only
  obtain ⟨hl5, hv5⟩ := expectVisible_logs_congr env.changeBtnVis .zChangeBtn
    "Change password button [aria-label=\"Change password\"]" 15000 ta4 tb4 hl4
  rcases p5 : Zillow.expectVisible env.changeBtnVis .zChangeBtn
    "Change password button [aria-label=\"Change password\"]" 15000 ta4 with ⟨ta5, b5⟩
  rcases q5 : Zillow.expectVisible env.changeBtnVis .zChangeBtn
    "Change password button [aria-label=\"Change password\"]" 15000 tb4 with ⟨tb5, d5⟩
  rw [p5, q5] at hl5 hv5
  simp only [] at hl5 hv5
  subst hv5
  cases b5 with
  | false => exact ⟨hl5, rfl⟩
  | true =>
  dsimp only
  refine chain_congr _ _ _ _ (by simp [act_eq, logsOf_append, hl5]) rfl ?_
  intro u9 u10 hu5
  dsimp only
  obtain ⟨hl6, hv6⟩ := expectVisible_logs_congr env.curVis .zCurrent
    "Current password input #current-password-input" 15000 u9 u10 hu5
  rcases p6 : Zillow.expectVisible env.curVis .zCurrent
    "Current password input #current-password-input" 15000 u9 with ⟨ta6, b6⟩
  rcases q6 : Zillow.expectVisible env.curVis .zCurrent
    "Current password input #current-password-input" 15000 u10 with ⟨tb6, d6⟩
  rw [p6, q6] at hl6 hv6
  simp only [] at hl6 hv6
  subst hv6
  cases b6 with
  | false => exact ⟨hl6, rfl⟩
  | true =>
  dsimp only
  obtain ⟨hl7, hv7⟩ := expectVisible_logs_congr env.newVis .zNew
    "New password input #new-password-input" 15000 ta6 tb6 hl6
  rcases p7 : Zillow.expectVisible env.newVis .zNew
    "New password input #new-password-input" 15000 ta6 with ⟨ta7, b7⟩
  rcases q7 : Zillow.expectVisible env.newVis .zNew
    "New password input #new-password-input" 15000 tb6 with ⟨tb7, d7⟩
  rw [p7, q7] at hl7 hv7
  simp only [] at hl7 hv7
  subst hv7
  cases b7 with
  | false => exact ⟨hl7, rfl⟩
  | true =>
  dsimp only
  obtain ⟨hl8, hv8⟩ := expectVisible_logs_congr env.confVis .zConfirm
    "Confirm password input #confirm-password-input" 15000 ta7 tb7 hl7
  rcases p8 : Zillow.expectVisible env.confVis .zConfirm
    "Confirm password input #confirm-password-input" 15000 ta7 with ⟨ta8, b8⟩
  rcases q8 : Zillow.expectVisible env.confVis .zConfirm
    "Confirm password input #confirm-password-input" 15000 tb7 with ⟨tb8, d8⟩
  rw [p8, q8] at hl8 hv8
  simp only [] at hl8 hv8
  subst hv8
  cases b8 with
  | false => exact ⟨hl8, rfl⟩
  | true =>
  dsimp only
  refine chain_congr _ _ _ _ (by simp [act_eq, logsOf_append, hl8, hmc, hmn]) rfl ?_
  intro u11 u12 hu6
  dsimp only
  refine chain_congr _ _ _ _ (by simp [act_eq, logsOf_append, hu6]) rfl ?_
  intro u13 u14 hu7
  dsimp only
  refine chain_congr _ _ _ _ (by simp [act_eq, logsOf_append, hu7]) rfl ?_
  intro u15 u16 hu8
  dsimp only
  obtain ⟨hl9, hv9⟩ := expectVisible_logs_congr env.applyVis .zApply
    "Apply button (type=submit) inside dialog" 15000 u15 u16 hu8
  rcases p9 : Zillow.expectVisible env.applyVis .zApply
    "Apply button (type=submit) inside dialog" 15000 u15 with ⟨ta9, b9⟩
  rcases q9 : Zillow.expectVisible env.applyVis .zApply
    "Apply button (type=submit) inside dialog" 15000 u16 with ⟨tb9, d9⟩
  rw [p9, q9] at hl9 hv9
  simp only [] at hl9 hv9
  subst hv9
  cases b9 with
  | false => exact ⟨hl9, rfl⟩
  | true =>
  dsimp only
  refine chain_congr _ _ _ _ (by simp [act_eq, logsOf_append, hl9]) rfl ?_
  intro u17 u18 hu9
  dsimp only
  have hu10 : logsOf (u17 ++ [Ev.waitUrl, Ev.waitDetached Sel.zDialog]) =
      logsOf (u18 ++ [Ev.waitUrl, Ev.waitDetached Sel.zDialog]) := by
    simp [logsOf_append, hu9]
  obtain ⟨hl10, hv10⟩ := safeGoto_logs_congr env.nav3 logoutUrl "Logout"
    (u17 ++ [Ev.waitUrl, Ev.waitDetached Sel.zDialog])
    (u18 ++ [Ev.waitUrl, Ev.waitDetached Sel.zDialog]) hu10
  rcases p10 : Zillow.safeGoto env.nav3 logoutUrl "Logout"
    (u17 ++ [Ev.waitUrl, Ev.waitDetached Sel.zDialog]) with ⟨ta10, b10⟩
  rcases q10 : Zillow.safeGoto env.nav3 logoutUrl "Logout"
    (u18 ++ [Ev.waitUrl, Ev.waitDetached Sel.zDialog]) with ⟨tb10, d10⟩
  rw [p10, q10] at hl10 hv10
  simp only [] at hl10 hv10
  subst hv10
  cases b10 with
  | false => refine ⟨by simp [logsOf_append, hl10], rfl⟩
  | true => refine ⟨by simp [logsOf_append, hl10], rfl⟩

end NavLemmas

section Claims

/-- C1: For every flow, whenever some required input is absent or empty (and
the browser-session acquisition that the source performs first does not
itself throw), the flow returns a run result with success = false whose
message contains every missing input name, not merely the first. -/
theorem missing_inputs_enumerated :
    (∀ (env : Fandom.Env) (v : Fandom.Vars), env.acquire = .ok () →
      Fandom.missingNames v ≠ [] →
      ∃ r : RunResult, (Fandom.FandomChangePasswordFlow env v).2 = .ok r ∧
        r.success = false ∧ ∀ n ∈ Fandom.missingNames v, containsStr r.message n = true) ∧
    (∀ (env : Zillow.Env) (v : Zillow.Vars), env.acquire = .ok () →
      Zillow.missingNames v ≠ [] →
      ∃ r : RunResult, (Zillow.zillowChangePasswordFlow env v).2 = .ok r ∧
        r.success = false ∧ ∀ n ∈ Zillow.missingNames v, containsStr r.message n = true) ∧
    (∀ (env : Pcpp.Env) (v : Pcpp.Vars), env.acquire = .ok () →
      Pcpp.listMissingInputs v ≠ [] →
      ∃ r : RunResult, (Pcpp.pcppChangePasswordTask env v).2 = .ok r ∧
        r.success = false ∧ ∀ n ∈ Pcpp.listMissingInputs v, containsStr r.message n = true) ∧
    (∀ (env : Weather.Env) (v : Weather.Vars), env.acquire = .ok () →
      Weather.missingNames v ≠ [] →
      ∃ r : RunResult, (Weather.WeatherComChangePassword env v).2 = .ok r ∧
        r.success = false ∧ ∀ n ∈ Weather.missingNames v, containsStr r.message n = true) ∧
    (∀ (env : Wiki.Env) (v : Wiki.Vars), env.acquire = .ok () →
      Wiki.missingNames v ≠ [] →
      ∃ r : RunResult, (Wiki.ChangeWikipediaPassword env v).2 = .ok r ∧
        r.success = false ∧ ∀ n ∈ Wiki.missingNames v, containsStr r.message n = true) := by
  refine ⟨?_, ?_, ?_, ?_, ?_⟩
  · intro env v hacq hne
    have hm : Fandom.inputsMissing v = true := (fandom_missing_iff v).mpr hne
    simp only [Fandom.FandomChangePasswordFlow, hacq, hm]
    exact ⟨⟨false, Fandom.missingMsg⟩, rfl, rfl, fandom_names_in_msg v⟩
  · intro env v hacq hne
    have hm : Zillow.inputsMissing v = true := (zillow_missing_iff v).mpr hne
    simp only [Zillow.zillowChangePasswordFlow, hacq, hm]
    exact ⟨⟨false, "Missing required inputs: " ++ String.intercalate ", " (Zillow.missingNames v)⟩,
      rfl, rfl, zillow_names_in_msg v⟩
  · intro env v hacq hne
    have hie : (Pcpp.listMissingInputs v).isEmpty = false := by
      cases hl : Pcpp.listMissingInputs v with
      | nil => exact absurd hl hne
      | cons a l => rfl
    simp only [Pcpp.pcppChangePasswordTask, hacq, hie]
    exact ⟨⟨false, "Missing required inputs: " ++ String.intercalate ", " (Pcpp.listMissingInputs v)⟩,
      rfl, rfl, pcpp_names_in_msg v⟩
  · intro env v hacq hne
    have hm : Weather.inputsMissing v = true := (weather_missing_iff v).mpr hne
    simp only [Weather.WeatherComChangePassword, hacq, hm]
    exact ⟨⟨false, Weather.missingMsg⟩, rfl, rfl, weather_names_in_msg v⟩
  · intro env v hacq hne
    have hm : Wiki.inputsMissing v = true := (wiki_missing_iff v).mpr hne
    simp only [Wiki.ChangeWikipediaPassword, hacq, hm]
    exact ⟨⟨false, Wiki.missingMsg⟩, rfl, rfl, wiki_names_in_msg v⟩

/-- Witness for missing_inputs_enumerated: one concrete missing-input run
per flow. -/
theorem missing_inputs_enumerated_witness :
    (∃ r : RunResult, (Fandom.FandomChangePasswordFlow Fandom.envReauth Fandom.varsMissing).2 = .ok r ∧
      r.success = false ∧ ∀ n ∈ Fandom.missingNames Fandom.varsMissing, containsStr r.message n = true) ∧
    (∃ r : RunResult, (Zillow.zillowChangePasswordFlow Zillow.envOk Zillow.varsMissing).2 = .ok r ∧
      r.success = false ∧ ∀ n ∈ Zillow.missingNames Zillow.varsMissing, containsStr r.message n = true) ∧
    (∃ r : RunResult, (Pcpp.pcppChangePasswordTask Pcpp.envDoneShort Pcpp.varsMissing).2 = .ok r ∧
      r.success = false ∧ ∀ n ∈ Pcpp.listMissingInputs Pcpp.varsMissing, containsStr r.message n = true) ∧
    (∃ r : RunResult, (Weather.WeatherComChangePassword Weather.envOk Weather.varsMissing).2 = .ok r ∧
      r.success = false ∧ ∀ n ∈ Weather.missingNames Weather.varsMissing, containsStr r.message n = true) ∧
    (∃ r : RunResult, (Wiki.ChangeWikipediaPassword Wiki.envOk Wiki.varsMissing).2 = .ok r ∧
      r.success = false ∧ ∀ n ∈ Wiki.missingNames Wiki.varsMissing, containsStr r.message n = true) :=
  ⟨missing_inputs_enumerated.1 Fandom.envReauth Fandom.varsMissing rfl (by decide),
   missing_inputs_enumerated.2.1 Zillow.envOk Zillow.varsMissing rfl (by decide),
   missing_inputs_enumerated.2.2.1 Pcpp.envDoneShort Pcpp.varsMissing rfl (by decide),
   missing_inputs_enumerated.2.2.2.1 Weather.envOk Weather.varsMissing rfl (by decide),
   missing_inputs_enumerated.2.2.2.2 Wiki.envOk Wiki.varsMissing rfl (by decide)⟩

/-- C2 counterexample: when the browser connection (or obtaining the page
handle) throws, the thrown error propagates out of the Fandom entry function
even though every required input is present: the caller receives a raised
error, not a run result. -/
theorem flow_boundary_exception_escape :
    (Fandom.FandomChangePasswordFlow Fandom.envAcqFail Fandom.varsOk).2 =
      .error "TypeError: Cannot read properties of undefined (reading pages)" := rfl

/-- C2 amended: once the browser session and page handle have been acquired,
every flow returns a run result (never a raised error), and any exception
thrown inside the try block after validation is converted into success =
false with a message carrying the exception's message behind the flow's
fixed catch prefix. -/
theorem flows_return_run_result :
    (∀ (env : Fandom.Env) (v : Fandom.Vars), env.acquire = .ok () →
      ∃ r : RunResult, (Fandom.FandomChangePasswordFlow env v).2 = .ok r) ∧
    (∀ (env : Zillow.Env) (v : Zillow.Vars), env.acquire = .ok () →
      ∃ r : RunResult, (Zillow.zillowChangePasswordFlow env v).2 = .ok r) ∧
    (∀ (env : Pcpp.Env) (v : Pcpp.Vars), env.acquire = .ok () →
      ∃ r : RunResult, (Pcpp.pcppChangePasswordTask env v).2 = .ok r) ∧
    (∀ (env : Weather.Env) (v : Weather.Vars), env.acquire = .ok () →
      ∃ r : RunResult, (Weather.WeatherComChangePassword env v).2 = .ok r) ∧
    (∀ (env : Wiki.Env) (v : Wiki.Vars), env.acquire = .ok () →
      ∃ r : RunResult, (Wiki.ChangeWikipediaPassword env v).2 = .ok r) ∧
    (∀ (env : Fandom.Env) (v : Fandom.Vars) (tr : List Ev) (e : String),
      env.acquire = .ok () → Fandom.inputsMissing v = false →
      Fandom.body env (v.username.getD "") (v.password.getD "") (v.newPassword.getD "")
        (Fandom.buildUrls (jsOrD v.baseUrl "https://community.fandom.com")) [.acquire] = (tr, .error e) →
      (Fandom.FandomChangePasswordFlow env v).2 = .ok ⟨false, "Workflow failed: " ++ e⟩) ∧
    (∀ (env : Wiki.Env) (v : Wiki.Vars) (tr : List Ev) (e : String),
      env.acquire = .ok () → Wiki.inputsMissing v = false →
      Wiki.body env [.acquire] = (tr, .error e) →
      (Wiki.ChangeWikipediaPassword env v).2 = .ok ⟨false, "Failed during workflow: " ++ e⟩) := by
  refine ⟨?_, ?_, ?_, ?_, ?_, ?_, ?_⟩
  · intro env v hacq
    simp only [Fandom.FandomChangePasswordFlow, hacq]
    by_cases hm : Fandom.inputsMissing v = true
    · exact ⟨⟨false, Fandom.missingMsg⟩, by simp [hm]⟩
    · rw [Bool.not_eq_true] at hm
      rcases hb : Fandom.body env (v.username.getD "") (v.password.getD "") (v.newPassword.getD "")
          (Fandom.buildUrls (jsOrD v.baseUrl "https://community.fandom.com")) [.acquire] with ⟨tr, r⟩
      cases r with
      | ok r0 => exact ⟨r0, by simp [hm, hb]⟩
      | error e => exact ⟨⟨false, "Workflow failed: " ++ e⟩, by simp [hm, hb]⟩
  · intro env v hacq
    simp only [Zillow.zillowChangePasswordFlow, hacq]
    by_cases hm : Zillow.inputsMissing v = true
    · exact ⟨⟨false, "Missing required inputs: " ++ String.intercalate ", " (Zillow.missingNames v)⟩,
        by simp [hm]⟩
    · rw [Bool.not_eq_true] at hm
      rcases hb : Zillow.body env (v.email.getD "") (v.currentPassword.getD "") (v.newPassword.getD "")
          (jsOrD v.startUrl "https://www.zillow.com/auth/user/login?entry_point=auth_ui_service_error_page&prompt=login")
          (jsOrD v.profileUrl "https://www.zillow.com/myzillow/profile/")
          (jsOrD v.logoutUrl "https://www.zillow.com/Logout.htm") [.acquire] with ⟨tr, r⟩
      cases r with
      | ok r0 => exact ⟨r0, by simp [hm, hb]⟩
      | error e => exact ⟨⟨false, "Workflow error: " ++ e⟩, by simp [hm, hb]⟩
  · intro env v hacq
    simp only [Pcpp.pcppChangePasswordTask, hacq]
    cases hie : (Pcpp.listMissingInputs v).isEmpty with
    | false =>
      exact ⟨⟨false, "Missing required inputs: " ++ String.intercalate ", " (Pcpp.listMissingInputs v)⟩,
        by simp [hie]⟩
    | true =>
      rcases hb : Pcpp.body env ((Pcpp.inputUsername v).getD "") ((Pcpp.inputOldPassword v).getD "")
          (v.newPassword.getD "")
          (jsOrD v.loginUrl "https://pcpartpicker.com/accounts/login/")
          (jsOrD v.changePasswordUrl "https://pcpartpicker.com/accounts/password/change/")
          [.acquire] with ⟨tr, r⟩
      cases r with
      | ok r0 => exact ⟨r0, by simp [hie, hb]⟩
      | error e => exact ⟨⟨false, "Unhandled error in flow: " ++ e⟩, by simp [hie, hb]⟩
  · intro env v hacq
    simp only [Weather.WeatherComChangePassword, hacq]
    by_cases hm : Weather.inputsMissing v = true
    · exact ⟨⟨false, Weather.missingMsg⟩, by simp [hm]⟩
    · rw [Bool.not_eq_true] at hm
      rcases hb : Weather.body env ((Weather.inputUsername v).getD "")
          ((Weather.inputPassword v).getD "")
          (if Weather.inputCurrentPassword v = "" then (Weather.inputPassword v).getD ""
            else Weather.inputCurrentPassword v)
          ((Weather.inputNewPassword v).getD "")
          (stripTrailingSlash (jsOrD v.baseUrl "https://weather.com")) [.acquire] with ⟨tr, r⟩
      cases r with
      | ok r0 => exact ⟨r0, by simp [hm, hb]⟩
      | error e => exact ⟨⟨false, "Flow failed: " ++ e⟩, by simp [hm, hb]⟩
  · intro env v hacq
    simp only [Wiki.ChangeWikipediaPassword, hacq]
    by_cases hm : Wiki.inputsMissing v = true
    · exact ⟨⟨false, Wiki.missingMsg⟩, by simp [hm]⟩
    · rw [Bool.not_eq_true] at hm
      rcases hb : Wiki.body env [.acquire] with ⟨tr, r⟩
      cases r with
      | ok r0 => exact ⟨r0, by simp [hm, hb]⟩
      | error e => exact ⟨⟨false, "Failed during workflow: " ++ e⟩, by simp [hm, hb]⟩
  · intro env v tr e hacq hm hb
    simp [Fandom.FandomChangePasswordFlow, hacq, hm, hb]
  · intro env v tr e hacq hm hb
    simp [Wiki.ChangeWikipediaPassword, hacq, hm, hb]

/-- Witness for flows_return_run_result: concrete all-successful runs, plus
a Wikipedia run whose login phase throws and is converted. -/
theorem flows_return_run_result_witness :
    (∃ r : RunResult, (Fandom.FandomChangePasswordFlow Fandom.envReauth Fandom.varsOk).2 = .ok r) ∧
    (∃ r : RunResult, (Zillow.zillowChangePasswordFlow Zillow.envOk Zillow.varsOk).2 = .ok r) ∧
    (Wiki.ChangeWikipediaPassword ⟨.ok (), .error "boom", .ok (), .ok ()⟩ ⟨some "u", some "p", some "n", none, none⟩).2 =
      .ok ⟨false, "Failed during workflow: boom"⟩ := by
  refine ⟨?_, ?_, ?_⟩
  · exact flows_return_run_result.1 Fandom.envReauth Fandom.varsOk rfl
  · exact flows_return_run_result.2.1 Zillow.envOk Zillow.varsOk rfl
  · exact flows_return_run_result.2.2.2.2.2.2 ⟨.ok (), .error "boom", .ok (), .ok ()⟩
      ⟨some "u", some "p", some "n", none, none⟩ [.acquire, .phase "login"] "boom" rfl rfl rfl

/-- C5 counterexample: on a missing-input run the trace already contains the
browser-session acquisition before the Failed run result is returned --
input validation does NOT complete before the session is connected or
created. -/
theorem validation_after_acquisition :
    Ev.acquire ∈ (Fandom.FandomChangePasswordFlow Fandom.envReauth Fandom.varsMissing).1 ∧
    (Fandom.FandomChangePasswordFlow Fandom.envReauth Fandom.varsMissing).2 =
      .ok ⟨false, Fandom.missingMsg⟩ := by
  constructor
  · decide
  · rfl

/-- C5 amended: for every flow, a missing-input run returns the Failed run
result after acquiring the browser session but before issuing any page
operation: its whole trace is exactly the acquisition event followed by the
console error line. -/
theorem validation_before_page_ops :
    (∀ (env : Fandom.Env) (v : Fandom.Vars), env.acquire = .ok () →
      Fandom.inputsMissing v = true →
      Fandom.FandomChangePasswordFlow env v =
        ([.acquire, .log Fandom.missingMsg], .ok ⟨false, Fandom.missingMsg⟩) ∧
      (Fandom.FandomChangePasswordFlow env v).1.countP isPageOp = 0) ∧
    (∀ (env : Zillow.Env) (v : Zillow.Vars), env.acquire = .ok () →
      Zillow.inputsMissing v = true →
      Zillow.zillowChangePasswordFlow env v =
        ([.acquire, .log ("Missing required inputs: " ++ String.intercalate ", " (Zillow.missingNames v))],
         .ok ⟨false, "Missing required inputs: " ++ String.intercalate ", " (Zillow.missingNames v)⟩) ∧
      (Zillow.zillowChangePasswordFlow env v).1.countP isPageOp = 0) ∧
    (∀ (env : Pcpp.Env) (v : Pcpp.Vars), env.acquire = .ok () →
      Pcpp.listMissingInputs v ≠ [] →
      Pcpp.pcppChangePasswordTask env v =
        ([.acquire, .log ("Missing required inputs: " ++ String.intercalate ", " (Pcpp.listMissingInputs v))],
         .ok ⟨false, "Missing required inputs: " ++ String.intercalate ", " (Pcpp.listMissingInputs v)⟩) ∧
      (Pcpp.pcppChangePasswordTask env v).1.countP isPageOp = 0) ∧
    (∀ (env : Weather.Env) (v : Weather.Vars), env.acquire = .ok () →
      Weather.inputsMissing v = true →
      Weather.WeatherComChangePassword env v =
        ([.acquire, .log Weather.missingMsg], .ok ⟨false, Weather.missingMsg⟩) ∧
      (Weather.WeatherComChangePassword env v).1.countP isPageOp = 0) ∧
    (∀ (env : Wiki.Env) (v : Wiki.Vars), env.acquire = .ok () →
      Wiki.inputsMissing v = true →
      Wiki.ChangeWikipediaPassword env v =
        ([.acquire, .log Wiki.missingMsg], .ok ⟨false, Wiki.missingMsg⟩) ∧
      (Wiki.ChangeWikipediaPassword env v).1.countP isPageOp = 0) := by
  refine ⟨?_, ?_, ?_, ?_, ?_⟩
  · intro env v hacq hm
    have h : Fandom.FandomChangePasswordFlow env v =
        ([.acquire, .log Fandom.missingMsg], .ok ⟨false, Fandom.missingMsg⟩) := by
      simp [Fandom.FandomChangePasswordFlow, hacq, hm]
    exact ⟨h, by rw [h]; rfl⟩
  · intro env v hacq hm
    have h : Zillow.zillowChangePasswordFlow env v =
        ([.acquire, .log ("Missing required inputs: " ++ String.intercalate ", " (Zillow.missingNames v))],
         .ok ⟨false, "Missing required inputs: " ++ String.intercalate ", " (Zillow.missingNames v)⟩) := by
      simp [Zillow.zillowChangePasswordFlow, hacq, hm]
    exact ⟨h, by rw [h]; rfl⟩
  · intro env v hacq hne
    have hie : (Pcpp.listMissingInputs v).isEmpty = false := by
      cases hl : Pcpp.listMissingInputs v with
      | nil => exact absurd hl hne
      | cons a l => rfl
    have h : Pcpp.pcppChangePasswordTask env v =
        ([.acquire, .log ("Missing required inputs: " ++ String.intercalate ", " (Pcpp.listMissingInputs v))],
         .ok ⟨false, "Missing required inputs: " ++ String.intercalate ", " (Pcpp.listMissingInputs v)⟩) := by
      simp [Pcpp.pcppChangePasswordTask, hacq, hie]
    exact ⟨h, by rw [h]; rfl⟩
  · intro env v hacq hm
    have h : Weather.WeatherComChangePassword env v =
        ([.acquire, .log Weather.missingMsg], .ok ⟨false, Weather.missingMsg⟩) := by
      simp [Weather.WeatherComChangePassword, hacq, hm]
    exact ⟨h, by rw [h]; rfl⟩
  · intro env v hacq hm
    have h : Wiki.ChangeWikipediaPassword env v =
        ([.acquire, .log Wiki.missingMsg], .ok ⟨false, Wiki.missingMsg⟩) := by
      simp [Wiki.ChangeWikipediaPassword, hacq, hm]
    exact ⟨h, by rw [h]; rfl⟩

/-- Witness for validation_before_page_ops at a concrete missing-input run
of each flow. -/
theorem validation_before_page_ops_witness :
    Zillow.zillowChangePasswordFlow Zillow.envOk Zillow.varsMissing =
      ([.acquire, .log "Missing required inputs: ANCHOR_EMAIL"],
       .ok ⟨false, "Missing required inputs: ANCHOR_EMAIL"⟩) ∧
    Weather.WeatherComChangePassword Weather.envOk Weather.varsMissing =
      ([.acquire, .log Weather.missingMsg], .ok ⟨false, Weather.missingMsg⟩) := by
  constructor
  · have h := (validation_before_page_ops.2.1 Zillow.envOk Zillow.varsMissing rfl rfl).1
    exact h.trans (by decide)
  · exact (validation_before_page_ops.2.2.2.1 Weather.envOk Weather.varsMissing rfl rfl).1

/-- C6: In the Fandom flow, when the sign-in form reappears after the
new-password submission (the 6-second re-auth wait succeeds) and the
replayed sign-in and logout calls succeed, the runner replays the login
exactly once using the NEW password -- the trace extends by exactly one
sign-in (one fill of the sign-in password field, with the new password) and
then proceeds to the logout navigation, confirm click and the final success
message; moreover, under every environment behavior, a run with distinct
current and new passwords fills the sign-in password field with the new
password at most once, so the replay can never happen twice. -/
theorem fandom_reauth_replay_once :
    (∀ (env : Fandom.Env) (u np : String) (urls : Fandom.Urls) (tr : List Ev),
      env.reauthWait = .ok () →
      env.login2.waitUserVisible = .ok () → env.login2.clickUser = .ok () →
      env.login2.fillUser = .ok () → env.login2.clickPass = .ok () →
      env.login2.fillPass = .ok () → env.login2.submitNav = .ok () →
      env.gotoLogout = .ok () → env.logoutWaitVisible = .ok () →
      env.logoutClick = .ok () →
      Fandom.reauthAndFinish env u np urls tr =
        (tr ++ [.waitSel .signinUsername,
          .log "Re-authentication detected after password change. Signing in with NEW password.",
          .waitSel .signinUsername, .click .signinUsername, .fill .signinUsername u,
          .click .signinPassword, .fill .signinPassword np,
          .log "Submitting sign-in form", .waitNav, .click .signinSubmit,
          .log ("Sign-in attempted. Current URL: " ++ env.login2.urlAfter),
          .log ("Navigating to logout page: " ++ urls.logoutUrl), .goto urls.logoutUrl,
          .log "Confirming logout", .waitSel .logoutConfirm,
          .log ("Click: Logout Confirm -> " ++ Sel.logoutConfirm.css), .waitNav, .click .logoutConfirm,
          .log ("Password changed and logout completed. Final URL: " ++ env.finalUrl)],
         .ok ⟨true, "Password changed and logout completed. Final URL: " ++ env.finalUrl⟩)) ∧
    (∀ (env : Fandom.Env) (b : Option String) (u p np : String), p ≠ np →
      fillCount Sel.signinPassword np
        (Fandom.FandomChangePasswordFlow env ⟨b, some u, some p, some np⟩).1 ≤ 1) := by
  constructor
  · intro env u np urls tr hre h1 h2 h3 h4 h5 h6 h7 h8 h9
    unfold Fandom.reauthAndFinish Fandom.signInT Fandom.finish
    rw [hre]
    simp [h1, h2, h3, h4, h5, h6, h7, h8, h9, act_eq]
  · intro env b u p np hneq
    unfold Fandom.FandomChangePasswordFlow
    cases hacq : env.acquire with
    | error e => simp [fillCount]
    | ok u0 =>
      simp only [Option.getD_some]
      split
      · simp [fillCount, List.countP_cons]
      · rcases hb : Fandom.body env u p np
            (Fandom.buildUrls (jsOrD b "https://community.fandom.com")) [.acquire] with ⟨tr, r⟩
        have hbb := fillCount_body_le env u p np hneq
          (Fandom.buildUrls (jsOrD b "https://community.fandom.com")) [.acquire]
        rw [hb] at hbb
        have htr : fillCount Sel.signinPassword np tr ≤ 1 := by
          simpa [fillCount, List.countP_cons] using hbb
        cases r with
        | ok r0 => simpa using htr
        | error e0 =>
          simpa [fillCount, List.countP_append, List.countP_cons] using htr

/-- Witness for fandom_reauth_replay_once: the all-successful environment in
which the sign-in form reappears, with inputs alice / OldP@ss1 / NewP@ss2!. -/
theorem fandom_reauth_replay_once_witness :
    Fandom.reauthAndFinish Fandom.envReauth "alice" "NewP@ss2!"
        (Fandom.buildUrls "https://community.fandom.com") [] =
      ([.waitSel .signinUsername,
        .log "Re-authentication detected after password change. Signing in with NEW password.",
        .waitSel .signinUsername, .click .signinUsername, .fill .signinUsername "alice",
        .click .signinPassword, .fill .signinPassword "NewP@ss2!",
        .log "Submitting sign-in form", .waitNav, .click .signinSubmit,
        .log "Sign-in attempted. Current URL: https://community.fandom.com/",
        .log "Navigating to logout page: https://community.fandom.com/wiki/Special:UserLogout",
        .goto "https://community.fandom.com/wiki/Special:UserLogout",
        .log "Confirming logout", .waitSel .logoutConfirm,
        .log ("Click: Logout Confirm -> " ++ Sel.logoutConfirm.css), .waitNav, .click .logoutConfirm,
        .log "Password changed and logout completed. Final URL: https://community.fandom.com/wiki/Special:UserLogout"],
       .ok ⟨true, "Password changed and logout completed. Final URL: https://community.fandom.com/wiki/Special:UserLogout"⟩) ∧
    fillCount Sel.signinPassword "NewP@ss2!"
      (Fandom.FandomChangePasswordFlow Fandom.envReauth Fandom.varsOk).1 ≤ 1 := by
  constructor
  · have h := fandom_reauth_replay_once.1 Fandom.envReauth "alice" "NewP@ss2!"
      (Fandom.buildUrls "https://community.fandom.com") [] rfl rfl rfl rfl rfl rfl rfl rfl rfl rfl
    exact h.trans (by decide)
  · exact fandom_reauth_replay_once.2 Fandom.envReauth none "alice" "OldP@ss1" "NewP@ss2!"
      (by decide)

/-- C8: for the Action Retrier `clickWithRetry` with attempt budget N: if
every attempt's click fails, exactly N click attempts occur and the retrier
then throws the last attempt's error; if the attempt at 0-based index k
(the (k+1)-st attempt, with k+1 ≤ N) succeeds after earlier failures,
exactly k+1 click attempts occur and no error is raised. -/
theorem clickWithRetry_attempt_counts (oracle : Nat → Res Unit) (s : Sel)
    (f : Nat → String) (N k : Nat) :
    (0 < N → (∀ j, j < N → oracle j = .error (f j)) →
      ∃ tr, Weather.clickWithRetry oracle s N [] = (tr, .error (f (N - 1))) ∧
        countClicks tr = N) ∧
    (k < N → (∀ j, j < k → ∃ e, oracle j = .error e) → oracle k = .ok () →
      ∃ tr, Weather.clickWithRetry oracle s N [] = (tr, .ok ()) ∧
        countClicks tr = k + 1) := by
  constructor
  · intro hN hfail
    obtain ⟨tr, h1, h2⟩ := clickRetryAux_all_fail oracle s f N 0 "undefined" [] hN
      (by simpa using hfail)
    exact ⟨tr, by simpa [Weather.clickWithRetry] using h1, by simpa [countClicks] using h2⟩
  · intro hkN hfail hok
    obtain ⟨tr, h1, h2⟩ := clickRetryAux_success oracle s k N 0 "undefined" [] hkN
      (by simpa using hfail) (by simpa using hok)
    exact ⟨tr, by simpa [Weather.clickWithRetry] using h1, by simpa [countClicks] using h2⟩

/-- Witness for clickWithRetry_attempt_counts: a two-attempt budget with
both clicks failing, and with the second click succeeding. -/
theorem clickWithRetry_attempt_counts_witness :
    (∃ tr, Weather.clickWithRetry (fun _ => .error "element not interactable") .wSave 2 [] =
      (tr, .error "element not interactable") ∧ countClicks tr = 2) ∧
    (∃ tr, Weather.clickWithRetry (fun i => if i = 0 then .error "detached" else .ok ()) .wSave 2 [] =
      (tr, .ok ()) ∧ countClicks tr = 2) := by
  constructor
  · exact (clickWithRetry_attempt_counts (fun _ => .error "element not interactable") .wSave
      (fun _ => "element not interactable") 2 0).1 (by decide) (fun j _ => rfl)
  · exact (clickWithRetry_attempt_counts (fun i => if i = 0 then .error "detached" else .ok ())
      .wSave (fun _ => "") 2 1).2 (by decide)
      (by
        intro j hj
        interval_cases j
        exact ⟨"detached", rfl⟩) rfl

/-- C7 counterexample: the mask placeholder is NOT fixed-length (its length
follows the credential length between 4 and 12), and two Zillow runs
differing only in the new-password value produce different console logs, so
the log output is not independent of the credential values supplied. -/
theorem mask_not_fixed_length :
    maskSecret (some "abcde") = "*****" ∧
    maskSecret (some "abcdefghijklmnop") = "************" ∧
    maskSecret (some "abcde") ≠ maskSecret (some "abcdefghijklmnop") ∧
    logsOf (Zillow.zillowChangePasswordFlow Zillow.envOk Zillow.varsShortNew).1 ≠
      logsOf (Zillow.zillowChangePasswordFlow Zillow.envOk Zillow.varsLongNew).1 := by
  exact ⟨by decide, by decide, by decide, by decide⟩

/-- C7 amended: credential values never reach the logs verbatim -- a logged
credential is rendered as an all-asterisk placeholder whose length is the
credential length clamped to 4..12 (not a fixed length), the placeholder
depends only on the credential's length, and two Zillow runs against the
same environment that differ only in credential values with equal masked
forms produce identical console logs and identical run results. -/
theorem mask_clamped_and_noninterference :
    (∀ v : String, v ≠ "" → (maskSecret (some v)).length = max 4 (min v.length 12)) ∧
    (∀ v : String, (maskSecret (some v)).data.all (fun c => c == '*') = true) ∧
    (∀ v w : String, v.length = w.length → maskSecret (some v) = maskSecret (some w)) ∧
    (∀ (env : Zillow.Env) (e1 c1 n1 e2 c2 n2 : String) (su pu lu : Option String),
      e1 ≠ "" → c1 ≠ "" → n1 ≠ "" → e2 ≠ "" → c2 ≠ "" → n2 ≠ "" →
      maskSecret (some e1) = maskSecret (some e2) →
      maskSecret (some c1) = maskSecret (some c2) →
      maskSecret (some n1) = maskSecret (some n2) →
      logsOf (Zillow.zillowChangePasswordFlow env ⟨some e1, some c1, some n1, su, pu, lu⟩).1 =
        logsOf (Zillow.zillowChangePasswordFlow env ⟨some e2, some c2, some n2, su, pu, lu⟩).1 ∧
      (Zillow.zillowChangePasswordFlow env ⟨some e1, some c1, some n1, su, pu, lu⟩).2 =
        (Zillow.zillowChangePasswordFlow env ⟨some e2, some c2, some n2, su, pu, lu⟩).2) := by
  refine ⟨?_, ?_, ?_, ?_⟩
  · intro v hv
    simp only [maskSecret]
    rw [if_neg hv]
    show (List.replicate (max 4 (min v.length 12)) '*').length = max 4 (min v.length 12)
    simp
  · intro v
    simp only [maskSecret]
    by_cases hv : v = ""
    · simp [hv]
    · rw [if_neg hv]
      simp [List.all_eq_true, List.mem_replicate]
  · intro v w h
    simp only [maskSecret]
    by_cases hv : v = ""
    · subst hv
      have hw : w = "" := by
        rcases w with ⟨wd⟩
        have h0 : wd.length = 0 := by simpa [String.length] using h.symm
        have hd : wd = [] := List.length_eq_zero.mp h0
        simp [hd]
      simp [hw]
    · have hw : w ≠ "" := by
        intro hw0
        subst hw0
        rcases v with ⟨vd⟩
        have h0 : vd.length = 0 := by simpa [String.length] using h
        have hd : vd = [] := List.length_eq_zero.mp h0
        exact hv (by simp [hd])
      rw [if_neg hv, if_neg hw, h]
  · intro env e1 c1 n1 e2 c2 n2 su pu lu he1 hc1 hn1 he2 hc2 hn2 hme hmc hmn
    have hm1 : Zillow.inputsMissing ⟨some e1, some c1, some n1, su, pu, lu⟩ = false := by
      simp [Zillow.inputsMissing, falsy, he1, hc1, hn1]
    have hm2 : Zillow.inputsMissing ⟨some e2, some c2, some n2, su, pu, lu⟩ = false := by
      simp [Zillow.inputsMissing, falsy, he2, hc2, hn2]
    unfold Zillow.zillowChangePasswordFlow
    cases hacq : env.acquire with
    | error e => exact ⟨rfl, rfl⟩
    | ok u0 =>
      simp only [hm1, hm2, Bool.false_eq_true, if_false, Option.getD_some]
      obtain ⟨hbl, hbr⟩ := zillow_body_logs_congr env e1 c1 n1 e2 c2 n2
        (jsOrD su "https://www.zillow.com/auth/user/login?entry_point=auth_ui_service_error_page&prompt=login")
        (jsOrD pu "https://www.zillow.com/myzillow/profile/")
        (jsOrD lu "https://www.zillow.com/Logout.htm") hme hmc hmn [.acquire] [.acquire] rfl
      rcases pb : Zillow.body env e1 c1 n1
          (jsOrD su "https://www.zillow.com/auth/user/login?entry_point=auth_ui_service_error_page&prompt=login")
          (jsOrD pu "https://www.zillow.com/myzillow/profile/")
          (jsOrD lu "https://www.zillow.com/Logout.htm") [.acquire] with ⟨tb1, r1⟩
      rcases qb : Zillow.body env e2 c2 n2
          (jsOrD su "https://www.zillow.com/auth/user/login?entry_point=auth_ui_service_error_page&prompt=login")
          (jsOrD pu "https://www.zillow.com/myzillow/profile/")
          (jsOrD lu "https://www.zillow.com/Logout.htm") [.acquire] with ⟨tb2, r2⟩
      rw [pb, qb] at hbl hbr
      simp only [] at hbl hbr
      subst hbr
      cases r1 with
      | ok rr => exact ⟨hbl, rfl⟩
      | error e => exact ⟨by simp [logsOf_append, hbl], rfl⟩

/-- Witness for mask_clamped_and_noninterference: equal-length secrets mask
identically, and two concrete equal-length credential assignments yield
identical Zillow logs. -/
theorem mask_clamped_and_noninterference_witness :
    maskSecret (some "abcdefgh") = maskSecret (some "ABCDEFGH") ∧
    logsOf (Zillow.zillowChangePasswordFlow Zillow.envOk
        ⟨some "alice@example.com", some "Curr3nt!", some "N3wPass!", none, none, none⟩).1 =
      logsOf (Zillow.zillowChangePasswordFlow Zillow.envOk
        ⟨some "bobby@example.net", some "S3cret!!", some "N3wPass2", none, none, none⟩).1 := by
  constructor
  · exact mask_clamped_and_noninterference.2.2.1 "abcdefgh" "ABCDEFGH" rfl
  · exact (mask_clamped_and_noninterference.2.2.2 Zillow.envOk "alice@example.com" "Curr3nt!"
      "N3wPass!" "bobby@example.net" "S3cret!!" "N3wPass2" none none none
      (by decide) (by decide) (by decide) (by decide) (by decide) (by decide)
      (by decide) (by decide) (by decide)).1

/-- C3 counterexample: a final URL containing "/done/" but not the full
"/accounts/password/change/done/" path, with the confirmation text absent,
makes the PCPartPicker flow report failure, although the claim promises
success for any URL containing "/done/". -/
theorem pcpp_done_url_counterexample :
    containsStr "https://pcpartpicker.com/done/" "/done/" = true ∧
    (Pcpp.pcppChangePasswordTask Pcpp.envDoneShort Pcpp.varsOk).2 =
      .ok ⟨false, Pcpp.failMsg⟩ := by
  exact ⟨by decide, by decide⟩

/-- C3 amended: for every PCPartPicker run reaching verification with the
confirmation text absent, a final URL containing the full
"/accounts/password/change/done/" path yields success, and a final URL not
containing "/done/" (hence not containing the full path either) yields
failure with a message containing "may have failed". -/
theorem pcpp_verification_signals (env : Pcpp.Env) (v : Pcpp.Vars)
    (hacq : env.acquire = .ok ()) (hmiss : Pcpp.listMissingInputs v = [])
    (h1 : env.waitForm = .ok ()) (h2 : env.waitUser = .ok ()) (h3 : env.waitPass = .ok ())
    (h4 : env.fillUser = .ok ()) (h5 : env.fillPass = .ok ()) (h6 : env.clickLogin = .ok ())
    (hlogin : (!env.loggedIn && env.stillOnLogin) = false)
    (h7 : env.waitOld = .ok ()) (h8 : env.waitNew1 = .ok ()) (h9 : env.waitNew2 = .ok ())
    (h10 : env.fillOld = .ok ()) (h11 : env.fillNew1 = .ok ()) (h12 : env.fillNew2 = .ok ())
    (h13 : env.clickChange = .ok ())
    (htext : env.successTextVisible = false) :
    (containsStr env.finalUrl "/accounts/password/change/done/" = true →
      (Pcpp.pcppChangePasswordTask env v).2 = .ok ⟨true, Pcpp.okMsg⟩) ∧
    (containsStr env.finalUrl "/done/" = false →
      (Pcpp.pcppChangePasswordTask env v).2 = .ok ⟨false, Pcpp.failMsg⟩ ∧
      containsStr Pcpp.failMsg "may have failed" = true) := by
  have hie : (Pcpp.listMissingInputs v).isEmpty = true := by rw [hmiss]; rfl
  constructor
  · intro hurl
    simp [Pcpp.pcppChangePasswordTask, Pcpp.body, Pcpp.waitForVisible, Pcpp.submitJoin,
      hacq, hie, h1, h2, h3, h4, h5, h6, hlogin, h7, h8, h9, h10, h11, h12, h13, htext, hurl]
  · intro hurl
    have hfull : containsStr env.finalUrl "/accounts/password/change/done/" = false := by
      cases hf : containsStr env.finalUrl "/accounts/password/change/done/" with
      | false => rfl
      | true => rw [containsStr_done_of_full env.finalUrl hf] at hurl; exact hurl
    refine ⟨?_, by decide⟩
    simp [Pcpp.pcppChangePasswordTask, Pcpp.body, Pcpp.waitForVisible, Pcpp.submitJoin,
      hacq, hie, h1, h2, h3, h4, h5, h6, hlogin, h7, h8, h9, h10, h11, h12, h13, htext, hfull]

/-- Witness for pcpp_verification_signals: the all-successful environments
ending on the full done URL and on a URL without "/done/". -/
theorem pcpp_verification_signals_witness :
    (Pcpp.pcppChangePasswordTask Pcpp.envFullDone Pcpp.varsOk).2 = .ok ⟨true, Pcpp.okMsg⟩ ∧
    (Pcpp.pcppChangePasswordTask Pcpp.envNotDone Pcpp.varsOk).2 = .ok ⟨false, Pcpp.failMsg⟩ := by
  constructor
  · exact (pcpp_verification_signals Pcpp.envFullDone Pcpp.varsOk rfl (by decide) rfl rfl rfl
      rfl rfl rfl rfl rfl rfl rfl rfl rfl rfl rfl rfl).1 (by decide)
  · exact ((pcpp_verification_signals Pcpp.envNotDone Pcpp.varsOk rfl (by decide) rfl rfl rfl
      rfl rfl rfl rfl rfl rfl rfl rfl rfl rfl rfl rfl).2 (by decide)).1

/-- C4 counterexample: the weather.com navigation helper continues (reports
success) after a navigation error even though the current URL's host
(evil.example) differs from the target's host (weather.com), because it
tests substring containment of the hostname in the URL string; and the
PCPartPicker navigation helper swallows every navigation error and
continues with no host check at all. -/
theorem host_fallback_counterexample :
    urlHost "https://evil.example/weather.com" = some "evil.example" ∧
    urlHostname "https://weather.com/login" = some "weather.com" ∧
    (Weather.gotoWithLoad ⟨.error "Timeout 45000ms exceeded", "https://evil.example/weather.com"⟩
      "https://weather.com/login" []).2 = .ok () ∧
    Pcpp.safeGoto ⟨.error "Timeout 25000ms exceeded", .ok ()⟩
        "https://pcpartpicker.com/accounts/login/" [] =
      [.log "[nav] goto https://pcpartpicker.com/accounts/login/",
       .goto "https://pcpartpicker.com/accounts/login/",
       .log "[warn] page.goto error: Timeout 25000ms exceeded",
       .waitState "domcontentloaded"] := by
  exact ⟨by decide, by decide, by decide, by decide⟩

/-- C4 amended: only the Zillow helper implements the claimed host fallback
(on a navigation error it reports reached exactly when the current URL
parses to the same non-empty host as the target); the weather.com helper
instead continues exactly when the current URL string contains the target
hostname as a substring (so a different-host URL embedding that hostname
also passes), and the PCPartPicker helper swallows the error and continues
unconditionally. -/
theorem navigation_host_fallback :
    (∀ (nav : Zillow.NavEnv) (url label : String) (tr : List Ev) (err : String),
      nav.outcome = .threw err → sameHost url nav.currentUrl = true →
      (Zillow.safeGoto nav url label tr).2 = true) ∧
    (∀ (nav : Zillow.NavEnv) (url label : String) (tr : List Ev) (err : String),
      nav.outcome = .threw err → sameHost url nav.currentUrl = false →
      (Zillow.safeGoto nav url label tr).2 = false) ∧
    (∀ (nav : Weather.WNavEnv) (url : String) (tr : List Ev) (err h : String),
      nav.gotoRes = .error err → urlHostname url = some h →
      containsStr nav.currentUrl h = true →
      (Weather.gotoWithLoad nav url tr).2 = .ok ()) ∧
    (∀ (nav : Weather.WNavEnv) (url : String) (tr : List Ev) (err h : String),
      nav.gotoRes = .error err → urlHostname url = some h →
      containsStr nav.currentUrl h = false →
      (Weather.gotoWithLoad nav url tr).2 = .error err) ∧
    (∀ (nav : Pcpp.PNavEnv) (url : String) (tr : List Ev) (e : String),
      nav.gotoRes = .error e →
      Pcpp.safeGoto nav url tr = tr ++ [.log ("[nav] goto " ++ url), .goto url,
        .log ("[warn] page.goto error: " ++ e), .waitState "domcontentloaded"]) := by
  refine ⟨?_, ?_, ?_, ?_, ?_⟩
  · intro nav url label tr err ho hs
    unfold sameHost at hs
    unfold Zillow.safeGoto
    rw [ho]
    rcases hu : urlHost url with _ | th
    · rw [hu] at hs; simp at hs
    · rcases hc : urlHost nav.currentUrl with _ | ch
      · rw [hu, hc] at hs; simp at hs
      · rw [hu, hc] at hs
        have : th = ch := by simpa using hs
        simp [this]
  · intro nav url label tr err ho hs
    unfold sameHost at hs
    unfold Zillow.safeGoto
    rw [ho]
    rcases hu : urlHost url with _ | th
    · simp
    · rcases hc : urlHost nav.currentUrl with _ | ch
      · simp
      · rw [hu, hc] at hs
        have : ¬(th = ch) := by simpa using hs
        simp [this]
  · intro nav url tr err h hres hhost hc
    unfold Weather.gotoWithLoad
    rw [hres, hhost]
    simp [hc]
  · intro nav url tr err h hres hhost hc
    unfold Weather.gotoWithLoad
    rw [hres, hhost]
    simp [hc]
  · intro nav url tr e hres
    unfold Pcpp.safeGoto
    rw [hres]
    simp

/-- Witness for navigation_host_fallback: a same-host timeout that is
tolerated, a different-host failure that is fatal, and a weather.com
navigation error without the hostname in the current URL that rethrows. -/
theorem navigation_host_fallback_witness :
    (Zillow.safeGoto ⟨.threw "Timeout 30000ms exceeded", "https://www.zillow.com/myzillow/profile/"⟩
      "https://www.zillow.com/auth/user/login" "Open login page" []).2 = true ∧
    (Zillow.safeGoto ⟨.threw "Timeout 30000ms exceeded", "https://captcha.example/block"⟩
      "https://www.zillow.com/auth/user/login" "Open login page" []).2 = false ∧
    (Weather.gotoWithLoad ⟨.error "Timeout 45000ms exceeded", "https://other.example/"⟩
      "https://weather.com/login" []).2 = .error "Timeout 45000ms exceeded" := by
  refine ⟨?_, ?_, ?_⟩
  · exact navigation_host_fallback.1 _ _ "Open login page" [] "Timeout 30000ms exceeded" rfl (by decide)
  · exact navigation_host_fallback.2.1 _ _ "Open login page" [] "Timeout 30000ms exceeded" rfl (by decide)
  · exact navigation_host_fallback.2.2.2.1 _ _ [] "Timeout 45000ms exceeded" "weather.com" rfl
      (by decide) (by decide)

/-- C9 counterexample: not every blocking call site passes a timeout: 42 of
the 67 transcribed sites pass none, among them the Wikipedia OTP event wait,
which is not a browser primitive and has no library default either. -/
theorem blocking_call_site_without_timeout :
    (⟨"wikipedia", "anchorClient.events.waitFor wikipedia-rotate-email-totp", none⟩ : CallSite) ∈
      blockingCallSites ∧
    ¬(∀ s ∈ blockingCallSites, s.timeoutMs ≠ none) := by
  exact ⟨by decide, by decide⟩

/-- C9 amended: every timeout that a blocking call site does pass is a
positive finite number of milliseconds, but 42 of the 67 blocking call
sites pass no timeout argument at all (relying, where one exists, on the
external library's default), among them the Wikipedia OTP event wait. -/
theorem explicit_timeouts_finite :
    (∀ s ∈ blockingCallSites, ∀ t : Nat, s.timeoutMs = some t → 0 < t) ∧
    (blockingCallSites.filter (fun s => s.timeoutMs = none)).length = 42 ∧
    blockingCallSites.length = 67 ∧
    (⟨"wikipedia", "anchorClient.events.waitFor wikipedia-rotate-email-totp", none⟩ : CallSite) ∈
      blockingCallSites.filter (fun s => s.timeoutMs = none) := by
  refine ⟨?_, by decide, by decide, by decide⟩
  intro s hs t ht
  have h := List.all_eq_true.mp (by decide : blockingCallSites.all timeoutOk = true) s hs
  unfold timeoutOk at h
  rw [ht] at h
  exact of_decide_eq_true h

/-- Witness for explicit_timeouts_finite at a concrete call site carrying a
timeout. -/
theorem explicit_timeouts_finite_witness : (0 : Nat) < 25000 :=
  explicit_timeouts_finite.1 ⟨"pcpartpicker", "safeGoto page.goto load", some 25000⟩
    (by decide) 25000 rfl

/-- C10: in the Zillow flow, every run that reaches the Apply click of the
change-password dialog and whose click succeeds returns success = true with
the fixed message, regardless of how the two swallowed post-submit waits
settle and regardless of the outcome of the logout navigation. -/
theorem zillow_apply_click_success (env : Zillow.Env) (v : Zillow.Vars)
    (hacq : env.acquire = .ok ()) (hm : Zillow.inputsMissing v = false)
    (hn1 : Zillow.navReached env.nav1
      (jsOrD v.startUrl "https://www.zillow.com/auth/user/login?entry_point=auth_ui_service_error_page&prompt=login") = true)
    (h1 : env.emailVis = .ok ()) (h2 : env.fillEmail = .ok ()) (h3 : env.pressEmail = .ok ())
    (h4 : env.pwdVis = .ok ()) (h5 : env.fillPwd = .ok ()) (h6 : env.pressPwd = .ok ())
    (hn2 : Zillow.navReached env.nav2 (jsOrD v.profileUrl "https://www.zillow.com/myzillow/profile/") = true)
    (h7 : env.changeBtnVis = .ok ()) (h8 : env.clickChangeBtn = .ok ())
    (h9 : env.curVis = .ok ()) (h10 : env.newVis = .ok ()) (h11 : env.confVis = .ok ())
    (h12 : env.fillCur = .ok ()) (h13 : env.fillNew = .ok ()) (h14 : env.fillConf = .ok ())
    (h15 : env.applyVis = .ok ()) (h16 : env.clickApply = .ok ()) :
    (Zillow.zillowChangePasswordFlow env v).2 = .ok ⟨true, Zillow.successMsg⟩ := by
  unfold Zillow.zillowChangePasswordFlow
  rw [hacq]
  simp only [hm, Bool.false_eq_true, if_false]
  unfold Zillow.body
  rw [safeGoto_eta env.nav1, hn1]
  simp only [h1, Zillow.expectVisible, act_eq, h2, h3, chain_ok, h4, h5, h6]
  rw [safeGoto_eta env.nav2, hn2]
  simp only [h7, Zillow.expectVisible, act_eq, h8, chain_ok, h9, h10, h11,
    h12, h13, h14, h15, h16]
  rw [safeGoto_eta env.nav3]
  cases Zillow.navReached env.nav3 (jsOrD v.logoutUrl "https://www.zillow.com/Logout.htm") <;> rfl

/-- Witness for zillow_apply_click_success: the concrete run in which the
URL wait and the dialog-detached wait both time out and the logout
navigation fails on a foreign host, which still reports success. -/
theorem zillow_apply_click_success_witness :
    (Zillow.zillowChangePasswordFlow Zillow.envSwallowed Zillow.varsOk).2 =
      .ok ⟨true, Zillow.successMsg⟩ :=
  zillow_apply_click_success Zillow.envSwallowed Zillow.varsOk rfl rfl (by decide)
    rfl rfl rfl rfl rfl rfl (by decide) rfl rfl rfl rfl rfl rfl rfl rfl rfl rfl

end Claims
